import Mathlib

/-!
# Verification of the nft-did-resolver resolution pipeline

A shallow embedding of `src/index.ts` and `src/subgraph-utils.ts` of the
`nft-did-resolver` package (v3.0.0), together with theorems checking the
repository's specification claims against it.

Modelling conventions:
* JavaScript strings are Lean `String`s; all string surgery is performed on the
  underlying `List Char` (`String.data`), which the JS per-character regex
  replaces correspond to exactly.
* Fallible JS code (functions that `throw`) is modelled with `Except String`,
  the `String` being the thrown `Error`'s message.  The dispatch boundary's
  `e.toString()` is modelled by prefixing `"Error: "`.
* The network collaborators (TheGraph subgraphs queried through
  `fetchQueryData`, and the Caip10Link stream store reached through
  `Caip10Link.fromAccount`) are oracles supplied in an `Env` record.  Every
  collaborator call performed by the pipeline is recorded in a trace
  (`List Call`), which the ordering/counting claims are stated over.
* `Date.now()` is the `now` field of `Env`; the JS `Date`-string parser used by
  `getVersionTime` (`new Date(str).getTime()`) is an explicit oracle parameter
  `dateParse`, since claims quantify over its outcomes, not its syntax.
* JS `number` values flowing through `getVersionTime` are modelled by `JsNum`
  (an integer or `NaN`); `Number(string)` conversion of token ids is modelled
  including float64 rounding (`roundFloat64`), since token ids can exceed 2^53.
-/

namespace NftDid

/-! ## CAIP identifier grammar (the `caip` package, as used by the resolver)

The resolver depends on `caip` (^1.1.0) for `ChainId`, `AccountId` and
`AssetId`.  Field grammar per the CAIP specs enforced by that package:
chain namespace `[-a-z0-9]{3,8}`, chain reference `[-a-zA-Z0-9]{1,32}`,
asset namespace `[-a-z0-9]{3,8}`, asset reference `[-a-zA-Z0-9]{1,64}`,
token id `[-a-zA-Z0-9]{1,78}`.  `parse` is modelled as splitting on the
delimiters and validating each field against its grammar. -/

/-- Character class `[-a-z0-9]` (CAIP namespace alphabet). -/
def nsChar (c : Char) : Bool :=
  c = '-' || c.isLower || c.isDigit

/-- Character class `[-a-zA-Z0-9]` (CAIP reference / token-id alphabet). -/
def refChar (c : Char) : Bool :=
  c = '-' || c.isAlphanum

/-- `[-a-z0-9]{3,8}` -/
def validNsChars (l : List Char) : Bool :=
  3 ≤ l.length && l.length ≤ 8 && l.all nsChar

/-- `[-a-zA-Z0-9]{1,n}` -/
def validRefChars (n : Nat) (l : List Char) : Bool :=
  1 ≤ l.length && l.length ≤ n && l.all refChar

/-- caip `ChainId`: `namespace:reference` (CAIP-2). `nsp` models the source
field `namespace` (a Lean keyword). -/
structure ChainId where
  nsp : String
  reference : String
deriving Repr, DecidableEq

/-- caip `ChainId.toString()`: `namespace:reference`. -/
def ChainId.toString (c : ChainId) : String :=
  c.nsp ++ ":" ++ c.reference

/-- caip `AssetName`: `namespace:reference` (asset half of CAIP-19). -/
structure AssetName where
  nsp : String
  reference : String
deriving Repr, DecidableEq

/-- caip `AssetName.toString()`. -/
def AssetName.toString (a : AssetName) : String :=
  a.nsp ++ ":" ++ a.reference

/-- caip `AssetId`: `chainId/assetName/tokenId` (CAIP-19 asset id). -/
structure AssetId where
  chainId : ChainId
  assetName : AssetName
  tokenId : String
deriving Repr, DecidableEq

/-- caip `AssetId.toString()`: `chainId/assetName/tokenId`. -/
def AssetId.toString (a : AssetId) : String :=
  a.chainId.toString ++ "/" ++ a.assetName.toString ++ "/" ++ a.tokenId

/-- caip `AccountId` (CAIP-10): an account on a chain. -/
structure AccountId where
  chainId : ChainId
  address : String
deriving Repr, DecidableEq

/-- caip `AccountId.toString()`: `namespace:reference:address`. -/
def AccountId.toString (a : AccountId) : String :=
  a.chainId.toString ++ ":" ++ a.address

/-- Splitting a character list at every occurrence of a separator character
(the list-level meaning of `String.split(sep)` for a one-character separator,
used by the caip parsers). -/
def splitChar (sep : Char) : List Char → List (List Char)
  | [] => [[]]
  | c :: rest =>
    match splitChar sep rest with
    | [] => [[]]
    | a :: as => if c = sep then [] :: a :: as else (c :: a) :: as

/-- Validity of a `ChainId`'s fields under the CAIP-2 grammar. -/
def ChainId.validB (c : ChainId) : Bool :=
  validNsChars c.nsp.data && validRefChars 32 c.reference.data

/-- Validity of an `AssetName`'s fields under the CAIP-19 grammar. -/
def AssetName.validB (a : AssetName) : Bool :=
  validNsChars a.nsp.data && validRefChars 64 a.reference.data

/-- Validity of an `AssetId` under the CAIP-19 grammar (this is what the
`caip` package's `AssetId.parse` enforces). -/
def AssetId.validB (a : AssetId) : Bool :=
  a.chainId.validB && a.assetName.validB && validRefChars 78 a.tokenId.data

/-- caip `ChainId.parse` on the underlying characters: split on `:` into
exactly two fields and validate them. -/
def ChainId.parseChars (l : List Char) : Option ChainId :=
  match splitChar ':' l with
  | [n, r] =>
    if validNsChars n && validRefChars 32 r then
      some ⟨String.mk n, String.mk r⟩
    else none
  | _ => none

/-- caip `ChainId.parse` (throws `Invalid chainId provided: <id>` on failure;
failure is `none` here, the caller re-attaches the message). -/
def ChainId.parse (s : String) : Option ChainId :=
  ChainId.parseChars s.data

/-- caip `AssetId.parse` on the underlying characters: split on `/` into
chainId, assetName and tokenId, split the first two on `:`, validate all five
fields against the CAIP grammar. -/
def AssetId.parseChars (l : List Char) : Option AssetId :=
  match splitChar '/' l with
  | [c, a, t] =>
    match splitChar ':' c, splitChar ':' a with
    | [cn, cr], [an, ar] =>
      if validNsChars cn && validRefChars 32 cr && validNsChars an &&
          validRefChars 64 ar && validRefChars 78 t then
        some ⟨⟨String.mk cn, String.mk cr⟩, ⟨String.mk an, String.mk ar⟩, String.mk t⟩
      else none
    | _, _ => none
  | _ => none

/-- caip `AssetId.parse`. -/
def AssetId.parse (s : String) : Option AssetId :=
  AssetId.parseChars s.data

/-! ## JS numbers and token-id canonicalization

`didToCaip` and `caipToDid` canonicalize a non-`0x` token id with
`` `0x${Number(tokenId).toString(16)}` ``.  `Number(s)` produces a float64:
integers above 2^53 are rounded to the nearest representable double
(ties to even); `toString(16)` then prints that double's exact integer value
in lower-case hexadecimal, and prints `NaN` for a failed conversion.  The
model covers decimal-digit strings and `0x`/`0X` hexadecimal strings — the
only numeric forms expressible in the CAIP token-id alphabet that the
resolver's tests exercise; other strings are mapped to `NaN` (the JS result
for all remaining token-id-alphabet strings except exotic forms such as
exponent notation, which no claim involves). -/

/-- Base-2 logarithm by repeated halving, structurally recursive on a fuel
argument so that it evaluates inside the kernel (`natLog2Aux n n` is
`⌊log2 n⌋` for positive `n`, since at most `n` halvings are ever needed). -/
def natLog2Aux : Nat → Nat → Nat
  | 0, _ => 0
  | fuel + 1, n => if n < 2 then 0 else natLog2Aux fuel (n / 2) + 1

/-- Round a natural number to the nearest float64-representable integer
(53-bit significand, ties to even).  Exact below 2^53; the resolver's token
ids stay far below the float64 overflow threshold, so no infinity case is
modelled. -/
def roundFloat64 (n : Nat) : Nat :=
  if n < 2 ^ 53 then n
  else
    let k := natLog2Aux n n
    let shift := k - 52
    let q := n / 2 ^ shift
    let r := n % 2 ^ shift
    let half := 2 ^ (shift - 1)
    if half < r || (r = half && q % 2 = 1) then (q + 1) * 2 ^ shift else q * 2 ^ shift

/-- The lower-case hexadecimal digit for `d < 16` (as printed by
`Number.prototype.toString(16)` and `BigNumber.prototype.toString(16)`). -/
def hexDigitChar (d : Nat) : Char :=
  if d < 10 then Char.ofNat (48 + d) else Char.ofNat (87 + d)

/-- Digit-extraction loop for `natToHexChars`, structurally recursive on a
fuel argument so that it evaluates inside the kernel. -/
def natToHexCharsAux : Nat → Nat → List Char
  | 0, _ => []
  | fuel + 1, n =>
    if n < 16 then [hexDigitChar n]
    else natToHexCharsAux fuel (n / 16) ++ [hexDigitChar (n % 16)]

/-- Lower-case hexadecimal digits of `n`, most significant first (no `0x`
prefix, no leading zeros; `0` prints as `"0"`). -/
def natToHexChars (n : Nat) : List Char :=
  natToHexCharsAux (n + 1) n

lemma natToHexCharsAux_irrel : ∀ f1 f2 n : Nat, n < f1 → n < f2 →
    natToHexCharsAux f1 n = natToHexCharsAux f2 n := by
  intro f1
  induction f1 with
  | zero => omega
  | succ f1 ih =>
    intro f2 n h1 h2
    cases f2 with
    | zero => omega
    | succ f2 =>
      simp only [natToHexCharsAux]
      by_cases h16 : n < 16
      · simp [h16]
      · have hdiv : n / 16 < n := Nat.div_lt_self (by omega) (by omega)
        simp only [if_neg h16]
        rw [ih f2 (n / 16) (by omega) (by omega)]

/-- The recursive unfolding of `natToHexChars`. -/
lemma natToHexChars_eq (n : Nat) : natToHexChars n =
    if n < 16 then [hexDigitChar n]
    else natToHexChars (n / 16) ++ [hexDigitChar (n % 16)] := by
  by_cases h16 : n < 16
  · simp [natToHexChars, natToHexCharsAux, h16]
  · have hdiv : n / 16 < n := Nat.div_lt_self (by omega) (by omega)
    rw [if_neg h16]
    show natToHexCharsAux (n + 1) n = _
    have hstep : natToHexCharsAux (n + 1) n =
        natToHexCharsAux n (n / 16) ++ [hexDigitChar (n % 16)] := by
      simp only [natToHexCharsAux]
      rw [if_neg h16]
    rw [hstep, natToHexCharsAux_irrel n (n / 16 + 1) (n / 16) (by omega) (by omega)]
    rfl

/-- Value of a decimal-digit string (the exact integer named by the digits). -/
def decDigitsVal (l : List Char) : Nat :=
  l.foldl (fun acc c => acc * 10 + (c.toNat - 48)) 0

/-- Value of one hexadecimal digit, if it is one. -/
def hexCharVal (c : Char) : Option Nat :=
  if c.isDigit then some (c.toNat - 48)
  else if 'a' ≤ c && c ≤ 'f' then some (c.toNat - 87)
  else if 'A' ≤ c && c ≤ 'F' then some (c.toNat - 55)
  else none

/-- Value of a hexadecimal-digit string, if every character is a hex digit. -/
def hexVal (l : List Char) : Option Nat :=
  l.foldl
    (fun acc c =>
      match acc, hexCharVal c with
      | some a, some d => some (a * 16 + d)
      | _, _ => none)
    (some 0)

/-- `Number(s)` for the strings the token-id canonicalization can meet:
`some n` is the (float64-rounded) integer value, `none` is `NaN`.
`Number('') = 0`; decimal digits and `0x`/`0X` hex are converted; everything
else in the token-id alphabet is `NaN`. -/
def jsNumberChars (l : List Char) : Option Nat :=
  match l with
  | [] => some 0
  | '0' :: 'x' :: rest =>
    if rest.isEmpty then none else (hexVal rest).map roundFloat64
  | '0' :: 'X' :: rest =>
    if rest.isEmpty then none else (hexVal rest).map roundFloat64
  | _ => if l.all Char.isDigit then some (roundFloat64 (decDigitsVal l)) else none

/-- The token-id canonicalization shared by `didToCaip` and `caipToDid`:
``tokenId.startsWith('0x') ? tokenId : `0x${Number(tokenId).toString(16)}` ``
(on the underlying characters; `NaN.toString(16)` is `"NaN"`). -/
def canonicalTokenIdChars (l : List Char) : List Char :=
  match l with
  | '0' :: 'x' :: rest => '0' :: 'x' :: rest
  | _ =>
    match jsNumberChars l with
    | some n => '0' :: 'x' :: natToHexChars n
    | none => '0' :: 'x' :: ['N', 'a', 'N']

/-- String-level wrapper of `canonicalTokenIdChars`. -/
def canonicalTokenId (s : String) : String :=
  String.mk (canonicalTokenIdChars s.data)

/-- `new BigNumber(s).toString(16)` as used by `erc721OwnerOf` /
`erc1155OwnersOf` (bignumber.js: arbitrary precision, accepts decimal and
`0x`/`0X` hexadecimal, prints lower-case hex, `"NaN"` on failure). -/
def bigNumberHexChars (l : List Char) : List Char :=
  match l with
  | '0' :: 'x' :: rest =>
    (match hexVal rest with
     | some n => if rest.isEmpty then ['N', 'a', 'N'] else natToHexChars n
     | none => ['N', 'a', 'N'])
  | '0' :: 'X' :: rest =>
    (match hexVal rest with
     | some n => if rest.isEmpty then ['N', 'a', 'N'] else natToHexChars n
     | none => ['N', 'a', 'N'])
  | _ =>
    if !l.isEmpty && l.all Char.isDigit then natToHexChars (decDigitsVal l)
    else ['N', 'a', 'N']

/-! ## JS string operations used by the identifier codec -/

/-- `s.replace(/^did:nft:/, '')`: strip the method prefix when anchored at the
start of the string. -/
def stripNftPrefixChars (l : List Char) : List Char :=
  if l.take 8 = "did:nft:".data then l.drop 8 else l

/-- `s.replace(/\?.+$/, '')`: delete from the leftmost `?` that is followed by
at least one character and by no newline up to the end of the string (`.` does
not match `'\n'` and `$` only matches at the very end without the `m` flag). -/
def stripQueryChars : List Char → List Char
  | [] => []
  | c :: rest =>
    if c = '?' && !rest.isEmpty && !rest.contains '\n' then []
    else c :: stripQueryChars rest

/-- One character of `replace(/\//g, '_')`. -/
def slashToUnder (c : Char) : Char := if c = '/' then '_' else c

/-- One character of `replace(/:/g, '.')`. -/
def colonToDot (c : Char) : Char := if c = ':' then '.' else c

/-- One character of `replace(/_/g, '/')`. -/
def underToSlash (c : Char) : Char := if c = '_' then '/' else c

/-- One character of `replace(/\./g, ':')`. -/
def dotToColon (c : Char) : Char := if c = '.' then ':' else c

/-! ## The identifier codec (`didToCaip`, `caipToDid`) -/

/-- `didToCaip` on the underlying characters:
strip `did:nft:`, strip the query, `_ → /`, `. → :`, `AssetId.parse`, then
canonicalize the token id.  `AssetId.parse` throwing is an `Except.error`
carrying the caip error message. -/
def didToCaipChars (l : List Char) : Except String AssetId :=
  let caip := ((stripQueryChars (stripNftPrefixChars l)).map underToSlash).map dotToColon
  match AssetId.parseChars caip with
  | none => .error ("Invalid assetId provided: " ++ String.mk caip)
  | some parsed => .ok { parsed with tokenId := canonicalTokenId parsed.tokenId }

/-- `export function didToCaip(id: string): AssetId` (src/index.ts). -/
def didToCaip (id : String) : Except String AssetId :=
  didToCaipChars id.data

/-- Civil date from days since 1970-01-01 (the standard era-based algorithm;
what `Date.prototype.toISOString` prints for the date part). -/
def civilFromDays (z0 : Int) : Int × Int × Int :=
  let z := z0 + 719468
  let era := Int.fdiv z 146097
  let doe := z - era * 146097
  let yoe := Int.fdiv (doe - Int.fdiv doe 1460 + Int.fdiv doe 36524 - Int.fdiv doe 146096) 365
  let y := yoe + era * 400
  let doy := doe - (365 * yoe + Int.fdiv yoe 4 - Int.fdiv yoe 100)
  let mp := Int.fdiv (5 * doy + 2) 153
  let d := doy - Int.fdiv (153 * mp + 2) 5 + 1
  let m := mp + (if mp < 10 then 3 else -9)
  (y + (if m ≤ 2 then 1 else 0), m, d)

/-- Left-pad the decimal digits of a nonnegative integer to `w` places. -/
def padNum (w : Nat) (n : Int) : String :=
  let s := n.toNat.repr
  String.mk (List.replicate (w - s.length) '0') ++ s

/-- `new Date(ts * 1000).toISOString().split('.')[0] + 'Z'` for a Unix
timestamp in seconds: whole-second ISO-8601 UTC (four-digit years, the range
this resolver meets). -/
def isoSecond (ts : Int) : String :=
  let days := Int.fdiv ts 86400
  let secs := ts - days * 86400
  let ymd := civilFromDays days
  padNum 4 ymd.1 ++ "-" ++ padNum 2 ymd.2.1 ++ "-" ++ padNum 2 ymd.2.2 ++ "T" ++
    padNum 2 (Int.fdiv secs 3600) ++ ":" ++ padNum 2 (Int.fdiv secs 60 % 60) ++ ":" ++
    padNum 2 (secs % 60) ++ "Z"

/-- `export function caipToDid(assetId, timestamp?)` (src/index.ts): build the
optional `?versionTime=` query (`timestamp` falsy — absent or `0` — yields no
query), canonicalize a non-`0x` token id, serialize the asset id and apply
`/ → _` then `: → .`. -/
def caipToDid (assetId : AssetId) (timestamp : Option Int) : String :=
  let query :=
    match timestamp with
    | some ts => if ts ≠ 0 then "?versionTime=" ++ isoSecond ts else ""
    | none => ""
  let canonical : AssetId := { assetId with tokenId := canonicalTokenId assetId.tokenId }
  let id := String.mk (((canonical.toString).data.map slashToUnder).map colonToDot)
  "did:nft:" ++ id ++ query

/-! ## Resolver configuration and its validation -/

/-- `ChainConfig` (src/index.ts): per-chain subgraph endpoints and clock skew
(milliseconds).  `assets` is a record from asset namespace to endpoint. -/
structure ChainConfig where
  blocks : String
  skew : Int
  assets : List (String × String)
deriving Repr, DecidableEq

/-- `NftResolverConfig`: the ceramic client (only its presence matters to
validation; its behaviour lives in the environment's identity-link oracle)
and the chain map.  `chains` is `none` when the field is absent at runtime
(the TS type does not prevent it and `validateResolverConfig` checks it). -/
structure NftResolverConfig where
  ceramic : Bool
  chains : Option (List (String × ChainConfig))
deriving Repr, DecidableEq

/-- `new URL(u)` syntax check, simplified to its scheme requirement: an ASCII
letter followed by scheme characters, a `:`, a nonempty remainder without
spaces.  (The claims under verification never depend on the finer points of
WHATWG URL parsing; this accepts the configs the tests accept and rejects the
ones they reject.) -/
def isValidUrl (s : String) : Bool :=
  match s.data with
  | [] => false
  | c :: rest =>
    c.isAlpha &&
      (let pre := rest.takeWhile (fun d => d ≠ ':')
       let post := rest.drop pre.length
       (pre.all fun d => d.isAlphanum || d = '+' || d = '-' || d = '.') &&
         match post with
         | ':' :: tail => !tail.isEmpty && !tail.contains ' '
         | _ => false)

/-- Validation of a single `chains` entry, in source order: `ChainId.parse`
(throws `Invalid chainId provided: <key>`), `new URL(chainConfig.blocks)`,
then `new URL` over `Object.values(chainConfig.assets)` (throws
`Invalid URL`). -/
def validateChainEntry (chainIdKey : String) (cc : ChainConfig) : Except String Unit :=
  match ChainId.parse chainIdKey with
  | none => .error ("Invalid chainId provided: " ++ chainIdKey)
  | some _ =>
    if !isValidUrl cc.blocks then .error "Invalid URL"
    else
      match cc.assets.find? (fun p => !isValidUrl p.2) with
      | some _ => .error "Invalid URL"
      | none => .ok ()

/-- Walk the entries, first failure wins (`Object.entries(...).forEach`). -/
def validateChainEntries : List (String × ChainConfig) → Except String Unit
  | [] => .ok ()
  | (k, cc) :: rest =>
    match validateChainEntry k cc with
    | .error e => .error e
    | .ok _ => validateChainEntries rest

/-- `validateResolverConfig(config)` (src/index.ts): missing config, missing
ceramic and missing chains each throw their own message; a failure while
validating the entries is wrapped as
`Invalid config for nft-did-resolver: <inner message>`. -/
def validateResolverConfig (config : Option NftResolverConfig) : Except String Unit :=
  match config with
  | none => .error "Missing nft-did-resolver config"
  | some cfg =>
    if !cfg.ceramic then .error "Missing ceramic client in nft-did-resolver config"
    else
      match cfg.chains with
      | none => .error "Missing chain parameters in nft-did-resolver config"
      | some chains =>
        match validateChainEntries chains with
        | .error e => .error ("Invalid config for nft-did-resolver: " ++ e)
        | .ok _ => .ok ()

/-! ## The resolution pipeline

The network collaborators live in `Env`:
* `fetch` answers one `fetchQueryData(url, query)` call (`url` is `none` when
  the code passes `undefined`, e.g. a missing asset-namespace endpoint);
  `Except.error` is a transport failure or GraphQL error message;
* `caip10Did` answers one `Caip10Link.fromAccount` call with `link?.did`;
* `now` is `Date.now()` in milliseconds.
Every collaborator call the pipeline performs is recorded in a `List Call`
trace, in issue order (the concurrent `Promise.all` fan-out of identity-link
lookups is recorded in owner order, which is also the order its results are
gathered in). -/

/-- A JS `number` that is either an integer or `NaN` (the two shapes
`getVersionTime` can produce). -/
inductive JsNum where
  | nan : JsNum
  | int (n : Int) : JsNum
deriving Repr, DecidableEq

/-- The structured content of a GraphQL query document sent to a subgraph
(the fields the resolver fills in; fixed parts such as `first: 1`,
`orderBy: timestamp desc` and the erc1155 `value_gt: 0` balance filter are
part of the constructor's meaning). -/
inductive GraphQuery where
  /-- blocks query: `first 1, orderBy timestamp, desc, where timestamp_lte`. -/
  | blocks (timestampLte : Int) : GraphQuery
  /-- erc721 tokens query: `where id = <contract>-<tokenIdHex>`, pinned to a
  block number when `block` is `some` (`block: blockNum ? {number} : null`). -/
  | tokens721 (idFilter : String) (block : Option Int) : GraphQuery
  /-- erc1155 tokens query: same filter shape, balances restricted to
  `value_gt: 0`. -/
  | tokens1155 (idFilter : String) (block : Option Int) : GraphQuery
deriving Repr, DecidableEq

/-- The shapes of `data` a subgraph can answer with (a mismatched shape makes
the calling code fail its own `Missing data from subgraph query` checks). -/
inductive GraphData where
  /-- `data.blocks[i].number` (already through `parseInt`). -/
  | blocks (numbers : List Int) : GraphData
  /-- `data.tokens[i].owner.id` for erc721. -/
  | tokens721 (owners : List String) : GraphData
  /-- `data.tokens[i].balances[j].account.id` for erc1155. -/
  | tokens1155 (tokens : List (List String)) : GraphData
deriving Repr, DecidableEq

/-- One collaborator call. -/
inductive Call where
  | fetch (url : Option String) (query : GraphQuery) : Call
  | caip10 (account : AccountId) : Call
deriving Repr, DecidableEq

/-- The collaborators and the clock. -/
structure Env where
  now : Int
  fetch : Option String → GraphQuery → Except String GraphData
  caip10Did : AccountId → Except String (Option String)

/-- `isWithinLastBlock(timestamp, skew)` (src/subgraph-utils.ts):
`Date.now() - timestamp <= skew`. -/
def isWithinLastBlock (timestamp skew now : Int) : Bool :=
  decide (now - timestamp ≤ skew)

/-- `blockAtTime(timestamp, blockQueryUrl)` (src/subgraph-utils.ts): query the
blocks subgraph for the latest block at or before `timestamp`; fail when no
block exists or the data is malformed. -/
def blockAtTime (timestamp : Int) (blockQueryUrl : String) (env : Env) :
    Except String Int × List Call :=
  let q := GraphQuery.blocks timestamp
  let r : Except String Int :=
    match env.fetch (some blockQueryUrl) q with
    | .error e => .error e
    | .ok (GraphData.blocks []) =>
      .error ("No blocks exist before timestamp: " ++ Int.repr timestamp)
    | .ok (GraphData.blocks (b :: _)) => .ok b
    | .ok _ => .error "Missing data from subgraph query"
  (r, [Call.fetch (some blockQueryUrl) q])

/-- `erc721OwnerOf(asset, blockNum, queryUrl)` (src/subgraph-utils.ts):
hex-normalize the token id through BigNumber, query the erc721 subgraph for
`id = <contract>-<tokenIdHex>` (pinned to `blockNum` when nonzero), take the
single owner; fail when there is none. -/
def erc721OwnerOf (asset : AssetId) (blockNum : Int) (queryUrl : Option String)
    (env : Env) : Except String String × List Call :=
  let tokenIdHex := String.mk ('0' :: 'x' :: bigNumberHexChars asset.tokenId.data)
  let q := GraphQuery.tokens721 (asset.assetName.reference ++ "-" ++ tokenIdHex)
    (if blockNum ≠ 0 then some blockNum else none)
  let r : Except String String :=
    match env.fetch queryUrl q with
    | .error e => .error e
    | .ok (GraphData.tokens721 []) =>
      .error ("No owner found for ERC721 NFT ID: " ++ asset.tokenId ++
        " for contract: " ++ asset.assetName.reference)
    | .ok (GraphData.tokens721 (o :: _)) => .ok o
    | .ok _ => .error "Missing data from subgraph query"
  (r, [Call.fetch queryUrl q])

/-- `erc1155OwnersOf(asset, blockNum, queryUrl)` (src/subgraph-utils.ts):
same filter shape, balances already restricted by the query to strictly
positive values; fail when the token is unknown or has no positive balance. -/
def erc1155OwnersOf (asset : AssetId) (blockNum : Int) (queryUrl : Option String)
    (env : Env) : Except String (List String) × List Call :=
  let tokenIdHex := String.mk ('0' :: 'x' :: bigNumberHexChars asset.tokenId.data)
  let q := GraphQuery.tokens1155 (asset.assetName.reference ++ "-" ++ tokenIdHex)
    (if blockNum ≠ 0 then some blockNum else none)
  let r : Except String (List String) :=
    match env.fetch queryUrl q with
    | .error e => .error e
    | .ok (GraphData.tokens1155 []) =>
      .error ("No tokens with ERC1155 NFT ID: " ++ asset.tokenId ++
        " found for contract: " ++ asset.assetName.reference)
    | .ok (GraphData.tokens1155 ([] :: _)) =>
      .error ("No owner found for ERC1155 NFT ID: " ++ asset.tokenId ++
        " for contract: " ++ asset.assetName.reference)
    | .ok (GraphData.tokens1155 (bals :: _)) => .ok bals
    | .ok _ => .error "Missing data from subgraph query"
  (r, [Call.fetch queryUrl q])

/-- `assetToAccount(asset, timestamp, chains)` (src/index.ts): find the chain
configuration, decide whether a block-height lookup is needed
(`timestamp && !isWithinLastBlock(timestamp, chain.skew)`), run the
per-namespace ownership lookup (the second `chains[assetChainId]` lookup in
the source finds the same entry again), and wrap the owners as accounts. -/
def assetToAccount (asset : AssetId) (timestamp : JsNum)
    (chains : List (String × ChainConfig)) (env : Env) :
    Except String (List AccountId) × List Call :=
  let assetChainId := asset.chainId.toString
  match chains.lookup assetChainId with
  | none => (.error ("No chain configuration for " ++ assetChainId), [])
  | some chain =>
    let qb : Except String Int × List Call :=
      match timestamp with
      | .int t =>
        if t ≠ 0 && !isWithinLastBlock t chain.skew env.now then
          blockAtTime t chain.blocks env
        else (.ok 0, [])
      | .nan => (.ok 0, [])
    match qb with
    | (.error e, tr) => (.error e, tr)
    | (.ok queryBlock, tr) =>
      let ercSubgraphUrls := chain.assets
      if asset.assetName.nsp = "erc721" then
        match erc721OwnerOf asset queryBlock (ercSubgraphUrls.lookup "erc721") env with
        | (.error e, tr2) => (.error e, tr ++ tr2)
        | (.ok owner, tr2) =>
          (.ok ([owner].map fun o => AccountId.mk asset.chainId o), tr ++ tr2)
      else if asset.assetName.nsp = "erc1155" then
        match erc1155OwnersOf asset queryBlock (ercSubgraphUrls.lookup "erc1155") env with
        | (.error e, tr2) => (.error e, tr ++ tr2)
        | (.ok owners, tr2) =>
          (.ok (owners.map fun o => AccountId.mk asset.chainId o), tr ++ tr2)
      else
        (.error ("Only erc721 and erc1155 namespaces are currently supported. Given: " ++
          asset.assetName.nsp), tr)

/-- Gather the fan-out results of `Promise.all`: the first rejection rejects
the whole batch, otherwise the results in owner order. -/
def collectLinks : List (Except String (Option String)) →
    Except String (List (Option String))
  | [] => .ok []
  | .error e :: _ => .error e
  | .ok l :: rest =>
    match collectLinks rest with
    | .error e => .error e
    | .ok ls => .ok (l :: ls)

/-- `accountsToDids(accounts, timestamp, ceramic)` (src/index.ts): one
`Caip10Link.fromAccount` per owning account (issued for every account —
`Promise.all` fans out before anything is inspected), keep the linked DIDs in
owner order, return `undefined` (`none`) when there are none.  The
`timestamp` parameter is unused in the source as well. -/
def accountsToDids (accounts : List AccountId) (_timestamp : JsNum) (env : Env) :
    Except String (Option (List String)) × List Call :=
  let r : Except String (Option (List String)) :=
    match collectLinks (accounts.map env.caip10Did) with
    | .error e => .error e
    | .ok links =>
      let controllers := links.filterMap id
      .ok (if controllers.isEmpty then none else some controllers)
  (r, accounts.map Call.caip10)

/-- The document's `controller` field: a single DID or a list of DIDs. -/
inductive ControllerValue where
  | one (did : String) : ControllerValue
  | many (dids : List String) : ControllerValue
deriving Repr, DecidableEq

/-- A verification method entry (did-resolver `VerificationMethod`, the
fields this resolver populates). -/
structure VerificationMethod where
  id : String
  type : String
  controller : String
  blockchainAccountId : String
deriving Repr, DecidableEq

/-- A DID document as assembled by `wrapDocument`; `context` is the
`'@context'` member injected for the linked-data content type. -/
structure DIDDocument where
  id : String
  verificationMethod : List VerificationMethod
  controller : Option ControllerValue
  context : Option String
deriving Repr, DecidableEq

/-- `wrapDocument(did, accounts, controllers?)` (src/index.ts): one
verification method per owning account, and the controller field only when
controllers exist — a scalar for exactly one, the array otherwise. -/
def wrapDocument (did : String) (accounts : List AccountId)
    (controllers : Option (List String)) : DIDDocument :=
  let verificationMethods := accounts.map fun account =>
    VerificationMethod.mk (did ++ "#" ++ account.address)
      "BlockchainVerificationMethod2021" did account.toString
  let ctrl : Option ControllerValue :=
    match controllers with
    | none => none
    | some cs =>
      some (match cs with
            | [d] => ControllerValue.one d
            | _ => ControllerValue.many cs)
  DIDDocument.mk did verificationMethods ctrl none

/-- `pat` occurs as a contiguous run inside `l` (JS `String.includes`). -/
def containsSeq (pat : List Char) : List Char → Bool
  | [] => pat.isEmpty
  | c :: rest => pat.isPrefixOf (c :: rest) || containsSeq pat rest

/-- `e.includes('versionTime')` — substring containment. -/
def includesVersionTime (e : List Char) : Bool :=
  containsSeq "versionTime".data e

/-- `Math.floor(ms / 1000)` on a JS number (floor division; exact for every
timestamp magnitude the float64 quotient represents faithfully). -/
def jsFloorDiv1000 : JsNum → JsNum
  | .nan => .nan
  | .int t => .int (Int.fdiv t 1000)

/-- `getVersionTime(query = '')` (src/index.ts): find the first
`&`-separated part containing `versionTime`, take what follows its first `=`
(`new Date(undefined)` — no `=` — is an invalid date, `NaN`), parse it with
the JS `Date` parser `dateParse` (milliseconds or `NaN`) and floor to
seconds; `0` when the parameter is absent. -/
def getVersionTime (dateParse : String → JsNum) (query : String) : JsNum :=
  match (splitChar '&' query.data).find? includesVersionTime with
  | none => JsNum.int 0
  | some part =>
    match (splitChar '=' part)[1]? with
    | none => JsNum.nan
    | some v => jsFloorDiv1000 (dateParse (String.mk v))

/-- did-resolver `DIDResolutionMetadata` (the fields this resolver sets). -/
structure DIDResolutionMetadata where
  contentType : Option String
  error : Option String
  message : Option String
deriving Repr, DecidableEq

/-- did-resolver `DIDResolutionResult`.  `didDocumentMetadata` is always the
empty record in this resolver; it is kept as a key-value list for shape. -/
structure DIDResolutionResult where
  didResolutionMetadata : DIDResolutionMetadata
  didDocument : Option DIDDocument
  didDocumentMetadata : List (String × String)
deriving Repr, DecidableEq

/-- `'application/did+ld+json'` -/
def DID_LD_JSON : String := "application/did+ld+json"

/-- `'application/did+json'` -/
def DID_JSON : String := "application/did+json"

/-- `resolve(did, methodId, timestamp, config)` (src/index.ts): decode the
identifier, look up the owning accounts, link controllers, assemble the
document.  Any stage failure propagates (the thrown error's message). -/
def resolve (did : String) (methodId : String) (timestamp : JsNum)
    (chains : List (String × ChainConfig)) (env : Env) :
    Except String DIDResolutionResult × List Call :=
  match didToCaip methodId with
  | .error e => (.error e, [])
  | .ok asset =>
    match assetToAccount asset timestamp chains env with
    | (.error e, tr1) => (.error e, tr1)
    | (.ok owningAccounts, tr1) =>
      match accountsToDids owningAccounts timestamp env with
      | (.error e, tr2) => (.error e, tr1 ++ tr2)
      | (.ok controllers, tr2) =>
        (.ok (DIDResolutionResult.mk
          (DIDResolutionMetadata.mk (some DID_JSON) none none)
          (some (wrapDocument did owningAccounts controllers))
          []), tr1 ++ tr2)

/-- `ParsedDID`: the pieces of the parsed identifier the handler reads
(`parsed.id` and the optional `parsed.query`). -/
structure ParsedDID where
  id : String
  query : Option String
deriving Repr, DecidableEq

/-- `DIDResolutionOptions`: the optional `accept` content type. -/
structure ResolutionOptions where
  accept : Option String
deriving Repr, DecidableEq

/-- The uniform error envelope produced at the dispatch boundary:
`{didResolutionMetadata: {error: 'invalidDid', message: e.toString()},
didDocument: null, didDocumentMetadata: {}}`. -/
def invalidDidEnvelope (message : String) : DIDResolutionResult :=
  DIDResolutionResult.mk
    (DIDResolutionMetadata.mk none (some "invalidDid") (some message)) none []

/-- The `nft` method handler returned by `getResolver` (src/index.ts).  The
`resolver` handle argument of the source is unused there and omitted here.
`options.accept || DID_JSON` makes an absent or empty accept default to
`DID_JSON`.  Inside the `try`: resolve, then negotiate — the linked-data type
injects `@context` and retags the content type, any other non-default type
nulls the result and reports `representationNotSupported`.  The `catch`
converts any thrown error into the `invalidDid` envelope with
`e.toString()` (`"Error: " ++ message`). -/
def nft (did : String) (parsed : ParsedDID) (options : ResolutionOptions)
    (chains : List (String × ChainConfig)) (env : Env)
    (dateParse : String → JsNum) : DIDResolutionResult × List Call :=
  let contentType :=
    match options.accept with
    | none => DID_JSON
    | some a => if a = "" then DID_JSON else a
  let timestamp := getVersionTime dateParse (parsed.query.getD "")
  match resolve did parsed.id timestamp chains env with
  | (.error e, tr) => (invalidDidEnvelope ("Error: " ++ e), tr)
  | (.ok didResult, tr) =>
    if contentType = DID_LD_JSON then
      (DIDResolutionResult.mk
        (DIDResolutionMetadata.mk (some DID_LD_JSON)
          didResult.didResolutionMetadata.error didResult.didResolutionMetadata.message)
        (didResult.didDocument.map fun d =>
          DIDDocument.mk d.id d.verificationMethod d.controller
            (some "https://w3id.org/did/v1"))
        didResult.didDocumentMetadata, tr)
    else if contentType ≠ DID_JSON then
      (DIDResolutionResult.mk
        (DIDResolutionMetadata.mk none (some "representationNotSupported")
          didResult.didResolutionMetadata.message)
        none [], tr)
    else (didResult, tr)

/-- `getResolver(config)` validates the configuration at construction; the
handler itself is `nft` above (over the validated chain map). -/
def getResolver (config : Option NftResolverConfig) : Except String Unit :=
  validateResolverConfig config

/-! ## Generic lemmas about the embedded primitives -/

lemma refChar_not_special {c : Char} (h : refChar c = true) :
    c ≠ '/' ∧ c ≠ ':' ∧ c ≠ '.' ∧ c ≠ '_' ∧ c ≠ '?' ∧ c ≠ '\n' := by
  refine ⟨?_, ?_, ?_, ?_, ?_, ?_⟩ <;> rintro rfl <;> revert h <;> decide

lemma nsChar_refChar {c : Char} (h : nsChar c = true) : refChar c = true := by
  simp only [nsChar, Bool.or_eq_true, decide_eq_true_eq] at h
  simp only [refChar, Char.isAlphanum, Char.isAlpha, Bool.or_eq_true, decide_eq_true_eq]
  tauto

lemma refChar_of_isDigit {c : Char} (h : c.isDigit = true) : refChar c = true := by
  simp only [refChar, Char.isAlphanum, Char.isAlpha, Bool.or_eq_true, decide_eq_true_eq]
  tauto

lemma splitChar_ne_nil (sep : Char) (l : List Char) : splitChar sep l ≠ [] := by
  cases l with
  | nil => simp [splitChar]
  | cons c rest =>
    simp only [splitChar]
    rcases h : splitChar sep rest with _ | ⟨a, as⟩
    · simp
    · by_cases hc : c = sep <;> simp [hc]

lemma splitChar_no_sep {sep : Char} {l : List Char} (h : ∀ c ∈ l, c ≠ sep) :
    splitChar sep l = [l] := by
  induction l with
  | nil => rfl
  | cons c rest ih =>
    have hc : c ≠ sep := h c (List.mem_cons_self c rest)
    have hrest : splitChar sep rest = [rest] := ih fun d hd => h d (List.mem_cons_of_mem c hd)
    simp [splitChar, hrest, hc]

lemma splitChar_append {sep : Char} {xs ys : List Char} (h : ∀ c ∈ xs, c ≠ sep) :
    splitChar sep (xs ++ sep :: ys) = xs :: splitChar sep ys := by
  induction xs with
  | nil =>
    simp only [List.nil_append, splitChar]
    rcases hys : splitChar sep ys with _ | ⟨a, as⟩
    · exact absurd hys (splitChar_ne_nil sep ys)
    · simp
  | cons x xs ih =>
    have hx : x ≠ sep := h x (List.mem_cons_self x xs)
    have ih2 := ih fun d hd => h d (List.mem_cons_of_mem x hd)
    simp [splitChar, ih2, hx]

lemma stripQueryChars_id {l : List Char} (h : ∀ c ∈ l, c ≠ '?') :
    stripQueryChars l = l := by
  induction l with
  | nil => rfl
  | cons c rest ih =>
    have hc : c ≠ '?' := h c (List.mem_cons_self c rest)
    have ih2 := ih fun d hd => h d (List.mem_cons_of_mem c hd)
    simp [stripQueryChars, hc, ih2]

lemma stripNftPrefixChars_append (l : List Char) :
    stripNftPrefixChars (['d', 'i', 'd', ':', 'n', 'f', 't', ':'] ++ l) = l := by
  have h8 : ([ 'd', 'i', 'd', ':', 'n', 'f', 't', ':'] : List Char).length = 8 := by decide
  unfold stripNftPrefixChars
  rw [show (8 : Nat) = (['d', 'i', 'd', ':', 'n', 'f', 't', ':'] : List Char).length
      from h8.symm,
    List.take_left, List.drop_left]
  simp

lemma natToHexChars_refChar (n : Nat) : ∀ c ∈ natToHexChars n, refChar c = true := by
  induction n using Nat.strong_induction_on with
  | _ n ih =>
    intro c hc
    rw [natToHexChars_eq] at hc
    split at hc
    · next h16 =>
      simp only [List.mem_singleton] at hc
      subst hc
      unfold hexDigitChar
      exact (by interval_cases n <;> decide :
        refChar (if n < 10 then Char.ofNat (48 + n) else Char.ofNat (87 + n)) = true)
    · next h16 =>
      rcases List.mem_append.mp hc with h1 | h2
      · exact ih (n / 16) (Nat.div_lt_self (by omega) (by omega)) c h1
      · simp only [List.mem_singleton] at h2
        subst h2
        unfold hexDigitChar
        have hlt : n % 16 < 16 := Nat.mod_lt n (by omega)
        exact (by interval_cases h : n % 16 <;> simp [h] <;> decide :
          refChar (if n % 16 < 10 then Char.ofNat (48 + n % 16)
            else Char.ofNat (87 + n % 16)) = true)

lemma natToHexChars_length_le : ∀ (k n : Nat), n < 16 ^ k → 0 < k →
    (natToHexChars n).length ≤ k := by
  intro k
  induction k with
  | zero => omega
  | succ k ih =>
    intro n hn _
    rw [natToHexChars_eq]
    split
    · simp
    · next h16 =>
      have hk : 0 < k := by
        by_contra hk0
        have : k = 0 := by omega
        subst this
        simp [pow_succ] at hn
        omega
      have hdiv : n / 16 < 16 ^ k := by
        rw [Nat.div_lt_iff_lt_mul (by omega)]
        calc n < 16 ^ (k + 1) := hn
          _ = 16 ^ k * 16 := by rw [pow_succ]
      have := ih (n / 16) hdiv hk
      simp only [List.length_append, List.length_singleton]
      omega

lemma natToHexChars_ne_nil (n : Nat) : natToHexChars n ≠ [] := by
  rw [natToHexChars_eq]
  split
  · simp
  · simp

/-- `canonicalTokenIdChars` keeps a `0x`-prefixed token id verbatim. -/
lemma canonicalTokenIdChars_0x (rest : List Char) :
    canonicalTokenIdChars ('0' :: 'x' :: rest) = '0' :: 'x' :: rest := rfl

/-- On a nonempty all-digit token id, the canonicalization is
`0x` followed by the (float64-rounded) value in lower-case hex. -/
lemma canonicalTokenIdChars_digits {l : List Char} (hne : l ≠ [])
    (hdig : l.all Char.isDigit = true) :
    canonicalTokenIdChars l = '0' :: 'x' :: natToHexChars (roundFloat64 (decDigitsVal l)) := by
  have hjs : jsNumberChars l = some (roundFloat64 (decDigitsVal l)) := by
    unfold jsNumberChars
    split
    · exact absurd rfl hne
    · simp only [List.all_cons, Bool.and_eq_true] at hdig
      exact absurd hdig.2.1 (by decide)
    · simp only [List.all_cons, Bool.and_eq_true] at hdig
      exact absurd hdig.2.1 (by decide)
    · simp [hdig]
  unfold canonicalTokenIdChars
  split
  · simp only [List.all_cons, Bool.and_eq_true] at hdig
    exact absurd hdig.2.1 (by decide)
  · rw [hjs]

lemma roundFloat64_small {n : Nat} (h : n < 2 ^ 53) : roundFloat64 n = n := by
  unfold roundFloat64
  rw [if_pos h]

lemma collectLinks_ok {α : Type} (accounts : List α) (f : α → Option String) :
    collectLinks (accounts.map fun a => Except.ok (f a)) =
      Except.ok (accounts.map f) := by
  induction accounts with
  | nil => rfl
  | cons a rest ih => simp [collectLinks, ih]

/-! ## Codec lemmas: `AssetId.parse` inverts `AssetId.toString` -/

lemma validNsChars_all {l : List Char} (h : validNsChars l = true) :
    ∀ c ∈ l, refChar c = true := by
  simp only [validNsChars, Bool.and_eq_true] at h
  intro c hc
  exact nsChar_refChar (List.all_eq_true.mp h.2 c hc)

lemma validRefChars_all {n : Nat} {l : List Char} (h : validRefChars n l = true) :
    ∀ c ∈ l, refChar c = true := by
  simp only [validRefChars, Bool.and_eq_true] at h
  intro c hc
  exact List.all_eq_true.mp h.2 c hc

lemma refChars_pair_ne {x y : List Char} {sep : Char}
    (hx : ∀ c ∈ x, refChar c = true) (hy : ∀ c ∈ y, refChar c = true)
    (hs : (':' : Char) ≠ sep) (hr : ∀ c, refChar c = true → c ≠ sep) :
    ∀ c ∈ x ++ ':' :: y, c ≠ sep := by
  intro c hc
  rcases List.mem_append.mp hc with h1 | h1
  · exact hr c (hx c h1)
  · rcases List.mem_cons.mp h1 with rfl | h2
    · exact hs
    · exact hr c (hy c h2)

lemma AssetId.toStringData (a : AssetId) :
    (a.toString).data =
      (a.chainId.nsp.data ++ ':' :: a.chainId.reference.data) ++ '/' ::
        ((a.assetName.nsp.data ++ ':' :: a.assetName.reference.data) ++
          '/' :: a.tokenId.data) := by
  simp [AssetId.toString, ChainId.toString, AssetName.toString, String.data_append,
    List.append_assoc]

theorem AssetId.parse_toString (a : AssetId) (h : a.validB = true) :
    AssetId.parseChars (a.toString).data = some a := by
  simp only [AssetId.validB, ChainId.validB, AssetName.validB, Bool.and_eq_true] at h
  obtain ⟨⟨⟨hcn, hcr⟩, han, har⟩, ht⟩ := h
  have hcnA := validNsChars_all hcn
  have hcrA := validRefChars_all hcr
  have hanA := validNsChars_all han
  have harA := validRefChars_all har
  have htA := validRefChars_all ht
  have hC : ∀ c ∈ a.chainId.nsp.data ++ ':' :: a.chainId.reference.data, c ≠ '/' :=
    refChars_pair_ne hcnA hcrA (by decide) (fun c hc => (refChar_not_special hc).1)
  have hA : ∀ c ∈ a.assetName.nsp.data ++ ':' :: a.assetName.reference.data, c ≠ '/' :=
    refChars_pair_ne hanA harA (by decide) (fun c hc => (refChar_not_special hc).1)
  have hT : ∀ c ∈ a.tokenId.data, c ≠ '/' := fun c hc => (refChar_not_special (htA c hc)).1
  have hs1 : splitChar '/' ((a.chainId.nsp.data ++ ':' :: a.chainId.reference.data) ++ '/' ::
      ((a.assetName.nsp.data ++ ':' :: a.assetName.reference.data) ++
        '/' :: a.tokenId.data)) =
      [a.chainId.nsp.data ++ ':' :: a.chainId.reference.data,
        a.assetName.nsp.data ++ ':' :: a.assetName.reference.data, a.tokenId.data] := by
    rw [splitChar_append hC, splitChar_append hA, splitChar_no_sep hT]
  have hs2 : splitChar ':' (a.chainId.nsp.data ++ ':' :: a.chainId.reference.data) =
      [a.chainId.nsp.data, a.chainId.reference.data] := by
    rw [splitChar_append fun c hc => (refChar_not_special (hcnA c hc)).2.1,
      splitChar_no_sep fun c hc => (refChar_not_special (hcrA c hc)).2.1]
  have hs3 : splitChar ':' (a.assetName.nsp.data ++ ':' :: a.assetName.reference.data) =
      [a.assetName.nsp.data, a.assetName.reference.data] := by
    rw [splitChar_append fun c hc => (refChar_not_special (hanA c hc)).2.1,
      splitChar_no_sep fun c hc => (refChar_not_special (harA c hc)).2.1]
  rw [AssetId.toStringData]
  unfold AssetId.parseChars
  rw [hs1]
  simp only [hs2, hs3]
  simp [hcn, hcr, han, har, ht]

/-! ## Codec lemmas: the DID-form character translation -/

lemma dec_enc_char {c : Char} (h1 : c ≠ '_') (h2 : c ≠ '.') :
    dotToColon (underToSlash (colonToDot (slashToUnder c))) = c := by
  by_cases hs : c = '/'
  · subst hs; decide
  · by_cases hc : c = ':'
    · subst hc; decide
    · simp [slashToUnder, colonToDot, underToSlash, dotToColon, hs, hc, h1, h2]

lemma enc_char_ne_q {c : Char} (h : c ≠ '?') : colonToDot (slashToUnder c) ≠ '?' := by
  by_cases hs : c = '/'
  · subst hs; decide
  · by_cases hc : c = ':'
    · subst hc; decide
    · simpa [slashToUnder, colonToDot, hs, hc] using h

lemma toString_chars (a : AssetId) (h : a.validB = true) :
    ∀ c ∈ (a.toString).data, c = '/' ∨ c = ':' ∨ refChar c = true := by
  simp only [AssetId.validB, ChainId.validB, AssetName.validB, Bool.and_eq_true] at h
  obtain ⟨⟨⟨hcn, hcr⟩, han, har⟩, ht⟩ := h
  rw [AssetId.toStringData]
  intro c hc
  rcases List.mem_append.mp hc with h1 | h1
  · rcases List.mem_append.mp h1 with h2 | h2
    · exact Or.inr (Or.inr (validNsChars_all hcn c h2))
    · rcases List.mem_cons.mp h2 with rfl | h3
      · exact Or.inr (Or.inl rfl)
      · exact Or.inr (Or.inr (validRefChars_all hcr c h3))
  · rcases List.mem_cons.mp h1 with rfl | h2
    · exact Or.inl rfl
    · rcases List.mem_append.mp h2 with h3 | h3
      · rcases List.mem_append.mp h3 with h4 | h4
        · exact Or.inr (Or.inr (validNsChars_all han c h4))
        · rcases List.mem_cons.mp h4 with rfl | h5
          · exact Or.inr (Or.inl rfl)
          · exact Or.inr (Or.inr (validRefChars_all har c h5))
      · rcases List.mem_cons.mp h3 with rfl | h4
        · exact Or.inl rfl
        · exact Or.inr (Or.inr (validRefChars_all ht c h4))

lemma dec_enc_map {l : List Char} (h : ∀ c ∈ l, c ≠ '_' ∧ c ≠ '.') :
    (((l.map slashToUnder).map colonToDot).map underToSlash).map dotToColon = l := by
  simp only [List.map_map]
  have hpt : ∀ c ∈ l, (dotToColon ∘ underToSlash ∘ colonToDot ∘ slashToUnder) c = c :=
    fun c hc => dec_enc_char (h c hc).1 (h c hc).2
  rw [List.map_congr_left hpt]
  simp

lemma enc_map_ne_q {l : List Char} (h : ∀ c ∈ l, c ≠ '?') :
    ∀ c ∈ (l.map slashToUnder).map colonToDot, c ≠ '?' := by
  intro c hc
  simp only [List.map_map, List.mem_map] at hc
  obtain ⟨c0, hc0, rfl⟩ := hc
  exact enc_char_ne_q (h c0 hc0)

/-- Core round-trip: encoding a valid asset id whose token id already starts
with `0x` and decoding it back is the identity. -/
theorem didToCaip_caipToDid_core (a : AssetId) (hv : a.validB = true)
    (rest : List Char) (h0x : a.tokenId.data = '0' :: 'x' :: rest) :
    didToCaip (caipToDid a none) = Except.ok a := by
  have hcanon : canonicalTokenId a.tokenId = a.tokenId := by
    unfold canonicalTokenId
    rw [h0x, canonicalTokenIdChars_0x, ← h0x]
  have hfix : ({ a with tokenId := canonicalTokenId a.tokenId } : AssetId) = a := by
    rw [hcanon]
  have hchars := toString_chars a hv
  have hnq : ∀ c ∈ (a.toString).data, c ≠ '?' := by
    intro c hc
    rcases hchars c hc with rfl | rfl | h3
    · decide
    · decide
    · exact (refChar_not_special h3).2.2.2.2.1
  have hud : ∀ c ∈ (a.toString).data, c ≠ '_' ∧ c ≠ '.' := by
    intro c hc
    rcases hchars c hc with rfl | rfl | h3
    · exact ⟨by decide, by decide⟩
    · exact ⟨by decide, by decide⟩
    · exact ⟨(refChar_not_special h3).2.2.2.1, (refChar_not_special h3).2.2.1⟩
  unfold caipToDid
  simp only [hfix]
  unfold didToCaip didToCaipChars
  have hdata : ("did:nft:" ++
      String.mk (((a.toString).data.map slashToUnder).map colonToDot) ++ "").data =
      ['d', 'i', 'd', ':', 'n', 'f', 't', ':'] ++
        ((a.toString).data.map slashToUnder).map colonToDot := by
    simp [String.data_append]
  simp only [hdata, stripNftPrefixChars_append,
    stripQueryChars_id (enc_map_ne_q hnq), dec_enc_map hud,
    AssetId.parse_toString a hv]
  rw [hcanon]

/-! ## Decoding a textual DID built from raw parts -/

/-- The textual `did:nft:` identifier naming the given CAIP parts with the
DID separator conventions (`.` for `:`, `_` for `/`), token id verbatim. -/
def mkDidStr (cn cr an ar tok : String) : String :=
  "did:nft:" ++ cn ++ "." ++ cr ++ "_" ++ an ++ "." ++ ar ++ "_" ++ tok

lemma validRefChars_intro {n : Nat} {l : List Char} (h1 : l ≠ [])
    (h2 : l.length ≤ n) (h3 : ∀ c ∈ l, refChar c = true) :
    validRefChars n l = true := by
  have hlen : 1 ≤ l.length := List.length_pos.mpr h1
  simp only [validRefChars, hlen, h2, List.all_eq_true, Bool.and_eq_true,
    decide_eq_true_eq]
  exact ⟨⟨trivial, trivial⟩, h3⟩

lemma map_dec_refChars {l : List Char} (h : ∀ c ∈ l, refChar c = true) :
    (l.map underToSlash).map dotToColon = l := by
  simp only [List.map_map]
  have hpt : ∀ c ∈ l, (dotToColon ∘ underToSlash) c = c := by
    intro c hc
    have h1 := (refChar_not_special (h c hc)).2.2.1
    have h2 := (refChar_not_special (h c hc)).2.2.2.1
    simp [Function.comp, underToSlash, dotToColon, h1, h2]
  rw [List.map_congr_left hpt]
  simp

/-- Decoding `mkDidStr` parses the parts and canonicalizes the token id. -/
lemma didToCaip_mkDidStr (cn cr an ar tok : String)
    (hcn : validNsChars cn.data = true) (hcr : validRefChars 32 cr.data = true)
    (han : validNsChars an.data = true) (har : validRefChars 64 ar.data = true)
    (htok : validRefChars 78 tok.data = true) :
    didToCaip (mkDidStr cn cr an ar tok) =
      Except.ok (AssetId.mk (ChainId.mk cn cr) (AssetName.mk an ar)
        (canonicalTokenId tok)) := by
  have hcnA := validNsChars_all hcn
  have hcrA := validRefChars_all hcr
  have hanA := validNsChars_all han
  have harA := validRefChars_all har
  have htokA := validRefChars_all htok
  have hdata : (mkDidStr cn cr an ar tok).data =
      ['d', 'i', 'd', ':', 'n', 'f', 't', ':'] ++
        (cn.data ++ '.' :: (cr.data ++ '_' :: (an.data ++ '.' ::
          (ar.data ++ '_' :: tok.data)))) := by
    simp [mkDidStr, String.data_append, List.append_assoc]
  have hnq : ∀ c ∈ cn.data ++ '.' :: (cr.data ++ '_' :: (an.data ++ '.' ::
      (ar.data ++ '_' :: tok.data))), c ≠ '?' := by
    intro c hc
    rcases List.mem_append.mp hc with h1 | h1
    · exact (refChar_not_special (hcnA c h1)).2.2.2.2.1
    rcases List.mem_cons.mp h1 with rfl | h1
    · decide
    rcases List.mem_append.mp h1 with h2 | h2
    · exact (refChar_not_special (hcrA c h2)).2.2.2.2.1
    rcases List.mem_cons.mp h2 with rfl | h2
    · decide
    rcases List.mem_append.mp h2 with h3 | h3
    · exact (refChar_not_special (hanA c h3)).2.2.2.2.1
    rcases List.mem_cons.mp h3 with rfl | h3
    · decide
    rcases List.mem_append.mp h3 with h4 | h4
    · exact (refChar_not_special (harA c h4)).2.2.2.2.1
    rcases List.mem_cons.mp h4 with rfl | h4
    · decide
    · exact (refChar_not_special (htokA c h4)).2.2.2.2.1
  have hmaps : (((cn.data ++ '.' :: (cr.data ++ '_' :: (an.data ++ '.' ::
      (ar.data ++ '_' :: tok.data))))).map underToSlash).map dotToColon =
      (cn.data ++ ':' :: cr.data) ++ '/' ::
        ((an.data ++ ':' :: ar.data) ++ '/' :: tok.data) := by
    simp only [List.map_append, List.map_cons]
    rw [map_dec_refChars hcnA, map_dec_refChars hcrA, map_dec_refChars hanA,
      map_dec_refChars harA, map_dec_refChars htokA]
    simp [underToSlash, dotToColon, List.append_assoc]
  have hvB : (AssetId.mk (ChainId.mk cn cr) (AssetName.mk an ar) tok).validB = true := by
    simp [AssetId.validB, ChainId.validB, AssetName.validB, hcn, hcr, han, har, htok]
  have hparse := AssetId.parse_toString _ hvB
  rw [AssetId.toStringData] at hparse
  unfold didToCaip didToCaipChars
  simp only [hdata, stripNftPrefixChars_append, stripQueryChars_id hnq, hmaps]
  simp only [hparse]

/-- Equality of `Except` values is decidable (needed to evaluate the model at
concrete inputs). -/
instance exceptDecEq {ε α : Type} [DecidableEq ε] [DecidableEq α] :
    DecidableEq (Except ε α)
  | Except.error a, Except.error b =>
    if h : a = b then Decidable.isTrue (by rw [h])
    else Decidable.isFalse (fun hc => h (Except.error.inj hc))
  | Except.error _, Except.ok _ => Decidable.isFalse (fun hc => Except.noConfusion hc)
  | Except.ok _, Except.error _ => Decidable.isFalse (fun hc => Except.noConfusion hc)
  | Except.ok a, Except.ok b =>
    if h : a = b then Decidable.isTrue (by rw [h])
    else Decidable.isFalse (fun hc => h (Except.ok.inj hc))

/-! ## Claim C2 -/

/-- C2 (as stated, counterexample): decimal and hexadecimal textual token ids
naming the same token do NOT always decode to the same AssetReference.
Decimal `10` decodes to token id `0xa`, while the hexadecimal forms `0xA`
(upper case) and `0x0a` (leading zero) are kept verbatim; and above 2^53 the
decimal form is rounded through a JS `Number` (here `9007199254740993`, which
is `0x20000000000001`, decodes to `0x20000000000000`). -/
theorem C2_counterexample :
    didToCaip "did:nft:eip155.1_erc721.0xab_10" =
      Except.ok ⟨⟨"eip155", "1"⟩, ⟨"erc721", "0xab"⟩, "0xa"⟩ ∧
    didToCaip "did:nft:eip155.1_erc721.0xab_0xA" =
      Except.ok ⟨⟨"eip155", "1"⟩, ⟨"erc721", "0xab"⟩, "0xA"⟩ ∧
    didToCaip "did:nft:eip155.1_erc721.0xab_0x0a" =
      Except.ok ⟨⟨"eip155", "1"⟩, ⟨"erc721", "0xab"⟩, "0x0a"⟩ ∧
    didToCaip "did:nft:eip155.1_erc721.0xab_9007199254740993" =
      Except.ok ⟨⟨"eip155", "1"⟩, ⟨"erc721", "0xab"⟩, "0x20000000000000"⟩ ∧
    didToCaip "did:nft:eip155.1_erc721.0xab_0x20000000000001" =
      Except.ok ⟨⟨"eip155", "1"⟩, ⟨"erc721", "0xab"⟩, "0x20000000000001"⟩ ∧
    ("0xa" : String) ≠ "0xA" ∧ ("0xa" : String) ≠ "0x0a" ∧
    ("0x20000000000000" : String) ≠ "0x20000000000001" := by
  refine ⟨?_, ?_, ?_, ?_, ?_, by decide, by decide, by decide⟩ <;> decide

/-- C2 (amended): (a) decoding the encoded DID of a valid AssetReference
whose token id is `0x`-prefixed returns the original; (b) a decimal token id
and the canonical lower-case hexadecimal token id of the same value decode to
the same AssetReference, provided the value is below 2^53 (the JS `Number`
conversion used by the codec is exact only up to 2^53, and a non-canonical
hexadecimal spelling is kept verbatim rather than normalized). -/
theorem C2_token_codec_roundtrip :
    (∀ a : AssetId, a.validB = true →
      (∃ rest, a.tokenId.data = '0' :: 'x' :: rest) →
      didToCaip (caipToDid a none) = Except.ok a) ∧
    (∀ cn cr an ar : String, ∀ ds : List Char,
      validNsChars cn.data = true → validRefChars 32 cr.data = true →
      validNsChars an.data = true → validRefChars 64 ar.data = true →
      ds ≠ [] → ds.all Char.isDigit = true → ds.length ≤ 78 →
      decDigitsVal ds < 2 ^ 53 →
      didToCaip (mkDidStr cn cr an ar (String.mk ds)) =
        didToCaip (mkDidStr cn cr an ar
          (String.mk ('0' :: 'x' :: natToHexChars (decDigitsVal ds))))) := by
  constructor
  · rintro a hv ⟨rest, h0x⟩
    exact didToCaip_caipToDid_core a hv rest h0x
  · intro cn cr an ar ds hcn hcr han har hne hdig hlen h53
    have htok1 : validRefChars 78 (String.mk ds).data = true :=
      validRefChars_intro hne hlen
        (fun c hc => refChar_of_isDigit (List.all_eq_true.mp hdig c hc))
    have hhexlen : (natToHexChars (decDigitsVal ds)).length ≤ 14 :=
      natToHexChars_length_le 14 _
        (lt_of_lt_of_le h53 (by norm_num)) (by norm_num)
    have htok2 : validRefChars 78
        (String.mk ('0' :: 'x' :: natToHexChars (decDigitsVal ds))).data = true := by
      refine validRefChars_intro (by simp) ?_ ?_
      · simp only [List.length_cons]
        omega
      · intro c hc
        rcases List.mem_cons.mp hc with rfl | hc
        · decide
        rcases List.mem_cons.mp hc with rfl | hc
        · decide
        · exact natToHexChars_refChar _ c hc
    rw [didToCaip_mkDidStr _ _ _ _ _ hcn hcr han har htok1,
      didToCaip_mkDidStr _ _ _ _ _ hcn hcr han har htok2]
    have e1 : canonicalTokenId (String.mk ds) =
        String.mk ('0' :: 'x' :: natToHexChars (decDigitsVal ds)) := by
      unfold canonicalTokenId
      rw [show (String.mk ds).data = ds from rfl,
        canonicalTokenIdChars_digits hne hdig, roundFloat64_small h53]
    have e2 : canonicalTokenId
        (String.mk ('0' :: 'x' :: natToHexChars (decDigitsVal ds))) =
        String.mk ('0' :: 'x' :: natToHexChars (decDigitsVal ds)) := by
      unfold canonicalTokenId
      rw [show (String.mk ('0' :: 'x' :: natToHexChars (decDigitsVal ds))).data =
        '0' :: 'x' :: natToHexChars (decDigitsVal ds) from rfl, canonicalTokenIdChars_0x]
    rw [e1, e2]

/-- C2 witness: the amended round-trip evaluated at a concrete asset id and a
concrete decimal/hexadecimal token-id pair. -/
theorem C2_witness :
    didToCaip (caipToDid ⟨⟨"eip155", "1"⟩, ⟨"erc721", "0xab"⟩, "0x1"⟩ none) =
      Except.ok ⟨⟨"eip155", "1"⟩, ⟨"erc721", "0xab"⟩, "0x1"⟩ ∧
    didToCaip (mkDidStr "eip155" "1" "erc721" "0xab" (String.mk ['1', '0'])) =
      didToCaip (mkDidStr "eip155" "1" "erc721" "0xab"
        (String.mk ('0' :: 'x' :: natToHexChars (decDigitsVal ['1', '0'])))) :=
  ⟨C2_token_codec_roundtrip.1 _ (by decide) ⟨['1'], by decide⟩,
   C2_token_codec_roundtrip.2 "eip155" "1" "erc721" "0xab" ['1', '0']
     (by decide) (by decide) (by decide) (by decide) (by decide) (by decide)
     (by decide) (by decide)⟩

/-! ## Pipeline shape lemmas -/

/-- A successful `resolve` always carries the plain-JSON content type, no
error, no message, a document and empty document metadata. -/
lemma resolve_ok_shape {did methodId : String} {timestamp : JsNum}
    {chains : List (String × ChainConfig)} {env : Env} {r : DIDResolutionResult}
    (h : (resolve did methodId timestamp chains env).1 = Except.ok r) :
    ∃ doc, r = DIDResolutionResult.mk
      (DIDResolutionMetadata.mk (some DID_JSON) none none) (some doc) [] := by
  unfold resolve at h
  rcases hd : didToCaip methodId with e | asset
  · simp [hd] at h
  · simp only [hd] at h
    rcases ha : assetToAccount asset timestamp chains env with ⟨res1, tr1⟩
    simp only [ha] at h
    cases res1 with
    | error e => simp at h
    | ok owningAccounts =>
      rcases hc : accountsToDids owningAccounts timestamp env with ⟨res2, tr2⟩
      simp only [hc] at h
      cases res2 with
      | error e => simp at h
      | ok controllers =>
        simp only [Except.ok.injEq] at h
        exact ⟨wrapDocument did owningAccounts controllers, h.symm⟩

/-- An inert concrete environment for witnesses: the clock at zero, every
fetch failing, every identity-link lookup empty. -/
def envTrivial : Env :=
  Env.mk 0 (fun _ _ => Except.error "network unavailable") (fun _ => Except.ok none)

/-- The dispatch boundary: a failing pipeline makes the handler return the
`invalidDid` envelope with the stringified error. -/
lemma nft_of_resolve_error (did : String) (parsed : ParsedDID)
    (options : ResolutionOptions) (chains : List (String × ChainConfig))
    (env : Env) (dateParse : String → JsNum) (e : String)
    (h : (resolve did parsed.id (getVersionTime dateParse (parsed.query.getD ""))
      chains env).1 = Except.error e) :
    (nft did parsed options chains env dateParse).1 =
      invalidDidEnvelope ("Error: " ++ e) := by
  unfold nft
  rcases hr : resolve did parsed.id (getVersionTime dateParse (parsed.query.getD ""))
    chains env with ⟨res, tr⟩
  rw [hr] at h
  cases res with
  | error e2 =>
    have he : e2 = e := by simpa using h
    subst he
    simp only [hr]
  | ok r => simp at h

/-! ## Claim C1 -/

/-- C1: the `nft` handler never throws — it is a total function — and every
internal failure of the pipeline (any `Except.error e` from decoding, chain
lookup, block lookup, ownership lookup or identity-link lookup) is converted
into the uniform envelope `{didDocument: null, didDocumentMetadata: {},
didResolutionMetadata: {error: 'invalidDid', message: e.toString()}}`. -/
theorem C1_dispatch_error_envelope (did : String) (parsed : ParsedDID)
    (options : ResolutionOptions) (chains : List (String × ChainConfig))
    (env : Env) (dateParse : String → JsNum) (e : String)
    (h : (resolve did parsed.id (getVersionTime dateParse (parsed.query.getD ""))
      chains env).1 = Except.error e) :
    (nft did parsed options chains env dateParse).1 =
      invalidDidEnvelope ("Error: " ++ e) :=
  nft_of_resolve_error did parsed options chains env dateParse e h

/-- C1 witness: a malformed method-specific id makes the pipeline fail, and
the handler returns exactly the error envelope. -/
theorem C1_witness :
    (nft "did:nft:bad" (ParsedDID.mk "bad" none) (ResolutionOptions.mk none) []
      envTrivial (fun _ => JsNum.nan)).1 =
      invalidDidEnvelope "Error: Invalid assetId provided: bad" :=
  C1_dispatch_error_envelope "did:nft:bad" (ParsedDID.mk "bad" none)
    (ResolutionOptions.mk none) [] envTrivial (fun _ => JsNum.nan)
    "Invalid assetId provided: bad" (by decide)

/-! ## Claim C5 -/

/-- C5 (as stated, counterexample): an unsupported content type does NOT
always yield a `representationNotSupported` error.  When the underlying
resolution fails (here: no chain configured for the identifier's chain), the
dispatch catch produces the `invalidDid` envelope instead, even though the
requested type `text/html` is unsupported. -/
theorem C5_counterexample :
    (nft "did:nft:eip155.1_erc721.0xab_0x1"
        (ParsedDID.mk "eip155.1_erc721.0xab_0x1" none)
        (ResolutionOptions.mk (some "text/html")) [] envTrivial
        (fun _ => JsNum.nan)).1.didResolutionMetadata.error = some "invalidDid" ∧
      (some "invalidDid" : Option String) ≠ some "representationNotSupported" := by
  constructor
  · decide
  · decide

/-- C5 (amended): whenever the underlying resolution SUCCEEDS and the
requested content type is neither the plain document type nor the linked-data
type (and nonempty — an empty accept falls back to the default), the result
has a null document, empty metadata and a `representationNotSupported` error,
discarding the otherwise successful document. -/
theorem C5_rep_not_supported (did : String) (parsed : ParsedDID)
    (options : ResolutionOptions) (chains : List (String × ChainConfig))
    (env : Env) (dateParse : String → JsNum) (r : DIDResolutionResult) (ct : String)
    (hok : (resolve did parsed.id (getVersionTime dateParse (parsed.query.getD ""))
      chains env).1 = Except.ok r)
    (hacc : options.accept = some ct)
    (h1 : ct ≠ "") (h2 : ct ≠ DID_JSON) (h3 : ct ≠ DID_LD_JSON) :
    (nft did parsed options chains env dateParse).1 =
      DIDResolutionResult.mk
        (DIDResolutionMetadata.mk none (some "representationNotSupported") none)
        none [] := by
  obtain ⟨doc, rfl⟩ := resolve_ok_shape hok
  unfold nft
  rcases hr : resolve did parsed.id (getVersionTime dateParse (parsed.query.getD ""))
    chains env with ⟨res, tr⟩
  rw [hr] at hok
  have hres : res = Except.ok (DIDResolutionResult.mk
      (DIDResolutionMetadata.mk (some DID_JSON) none none) (some doc) []) := by
    simpa using hok
  subst hres
  simp only [hr, hacc]
  simp [h1, h2, h3]

/-- C5 witness: a successful erc721 resolution requested as `text/html` is
discarded and reported as `representationNotSupported`. -/
theorem C5_witness :
    (nft "did:nft:eip155.1_erc721.0xab_0x1"
        (ParsedDID.mk "eip155.1_erc721.0xab_0x1" none)
        (ResolutionOptions.mk (some "text/html"))
        [("eip155:1", ChainConfig.mk "https://b.example/q" 15000
          [("erc721", "https://e.example/q")])]
        (Env.mk 0
          (fun _ q => match q with
            | GraphQuery.tokens721 _ _ => Except.ok (GraphData.tokens721 ["0xowner1"])
            | _ => Except.error "unexpected")
          (fun _ => Except.ok none))
        (fun _ => JsNum.nan)).1 =
      DIDResolutionResult.mk
        (DIDResolutionMetadata.mk none (some "representationNotSupported") none)
        none [] :=
  C5_rep_not_supported _ _ _ _ _ _
    (DIDResolutionResult.mk (DIDResolutionMetadata.mk (some DID_JSON) none none)
      (some (wrapDocument "did:nft:eip155.1_erc721.0xab_0x1"
        [AccountId.mk (ChainId.mk "eip155" "1") "0xowner1"] none)) [])
    "text/html" (by decide) rfl (by decide) (by decide) (by decide)

/-- A falsy timestamp (`NaN` or `0`) makes `assetToAccount` behave exactly as
with `NaN`: no block-height step either way. -/
lemma assetToAccount_falsy (asset : AssetId) (chains : List (String × ChainConfig))
    (env : Env) (t : JsNum) (hts : t = JsNum.nan ∨ t = JsNum.int 0) :
    assetToAccount asset t chains env = assetToAccount asset JsNum.nan chains env := by
  rcases hts with rfl | rfl
  · rfl
  · rfl

/-! ## Claim C9 -/

/-- C9 (as stated, counterexample): a configuration whose chain map is
present but EMPTY passes validation — construction succeeds — and the
resulting resolver then fails per request with a chain-configuration error. -/
theorem C9_counterexample :
    getResolver (some (NftResolverConfig.mk true (some []))) = Except.ok () ∧
    (nft "did:nft:eip155.1_erc721.0xab_0x1"
        (ParsedDID.mk "eip155.1_erc721.0xab_0x1" none) (ResolutionOptions.mk none)
        [] envTrivial (fun _ => JsNum.nan)).1 =
      invalidDidEnvelope "Error: No chain configuration for eip155:1" := by
  constructor
  · rfl
  · decide

/-- C9 (amended): construction-time validation rejects a missing config, a
missing ceramic client and an ABSENT chains field, each with its own error —
but an empty chains map passes validation, and the resulting resolver fails
only per request, with a `No chain configuration` envelope for every
well-formed identifier. -/
theorem C9_construction_validation :
    validateResolverConfig none = Except.error "Missing nft-did-resolver config" ∧
    validateResolverConfig (some (NftResolverConfig.mk false (some []))) =
      Except.error "Missing ceramic client in nft-did-resolver config" ∧
    validateResolverConfig (some (NftResolverConfig.mk true none)) =
      Except.error "Missing chain parameters in nft-did-resolver config" ∧
    validateResolverConfig (some (NftResolverConfig.mk true (some []))) =
      Except.ok () ∧
    (∀ (did : String) (q : Option String) (opts : ResolutionOptions) (env : Env)
      (dateParse : String → JsNum) (methodId : String) (asset : AssetId),
      didToCaip methodId = Except.ok asset →
      (nft did (ParsedDID.mk methodId q) opts [] env dateParse).1 =
        invalidDidEnvelope ("Error: " ++ ("No chain configuration for " ++
          asset.chainId.toString))) := by
  refine ⟨rfl, rfl, rfl, rfl, ?_⟩
  intro did q opts env dateParse methodId asset hdec
  apply nft_of_resolve_error
  show (resolve did methodId _ [] env).1 = _
  unfold resolve
  simp only [hdec]
  rfl

/-- C9 witness: the per-request failure of the empty-chain-map resolver,
evaluated at a concrete identifier. -/
theorem C9_witness :
    (nft "did:nft:eip155.1_erc1155.0xcd_0x2"
        (ParsedDID.mk "eip155.1_erc1155.0xcd_0x2" none) (ResolutionOptions.mk none)
        [] envTrivial (fun _ => JsNum.nan)).1 =
      invalidDidEnvelope "Error: No chain configuration for eip155:1" :=
  (C9_construction_validation.2.2.2.2 "did:nft:eip155.1_erc1155.0xcd_0x2"
    none (ResolutionOptions.mk none) envTrivial (fun _ => JsNum.nan)
    "eip155.1_erc1155.0xcd_0x2"
    ⟨⟨"eip155", "1"⟩, ⟨"erc1155", "0xcd"⟩, "0x2"⟩ (by decide)).trans (by decide)

/-! ## Claim C8 -/

/-- `assetToAccount` rejects an unsupported namespace once the chain lookup
and (possibly trivial) block step have gone through; with a falsy timestamp
the failure is immediate and the trace empty. -/
lemma assetToAccount_badns (asset : AssetId) (timestamp : JsNum)
    (chains : List (String × ChainConfig)) (env : Env) (chain : ChainConfig)
    (hl : chains.lookup asset.chainId.toString = some chain)
    (h721 : asset.assetName.nsp ≠ "erc721") (h1155 : asset.assetName.nsp ≠ "erc1155")
    (hts : timestamp = JsNum.nan ∨ timestamp = JsNum.int 0) :
    assetToAccount asset timestamp chains env =
      (Except.error ("Only erc721 and erc1155 namespaces are currently supported. Given: "
        ++ asset.assetName.nsp), []) := by
  rw [assetToAccount_falsy asset chains env timestamp hts]
  unfold assetToAccount
  simp only [hl, if_neg h721, if_neg h1155]

/-- `assetToAccount` can only succeed on the two supported namespaces; for
any other namespace it returns some error regardless of timestamp and
environment. -/
lemma assetToAccount_badns_any (asset : AssetId) (timestamp : JsNum)
    (chains : List (String × ChainConfig)) (env : Env)
    (h721 : asset.assetName.nsp ≠ "erc721") (h1155 : asset.assetName.nsp ≠ "erc1155") :
    ∃ m, (assetToAccount asset timestamp chains env).1 = Except.error m := by
  unfold assetToAccount
  rcases hl : chains.lookup asset.chainId.toString with _ | chain
  · refine ⟨"No chain configuration for " ++ asset.chainId.toString, ?_⟩
    simp only [hl]
  · simp only [hl]
    rcases hqb : (match timestamp with
      | JsNum.int t =>
        if t ≠ 0 && !isWithinLastBlock t chain.skew env.now then
          blockAtTime t chain.blocks env
        else (Except.ok 0, [])
      | JsNum.nan => (Except.ok 0, [])) with ⟨qres, qtr⟩
    rw [hqb]
    cases qres with
    | error e => exact ⟨e, rfl⟩
    | ok b =>
      refine ⟨"Only erc721 and erc1155 namespaces are currently supported. Given: " ++
        asset.assetName.nsp, ?_⟩
      simp only [if_neg h721, if_neg h1155]

/-- C8 (as stated, counterexample): decoding an identifier with the
unsupported namespace `erc123` SUCCEEDS (`didToCaip` performs no namespace
check, so no MalformedIdentifier condition arises at decode time), and when
the identifier's chain is not configured the error envelope names the chain,
not the unsupported namespace. -/
theorem C8_counterexample :
    didToCaip "did:nft:eip155.1_erc123.0xab_0x1" =
      Except.ok ⟨⟨"eip155", "1"⟩, ⟨"erc123", "0xab"⟩, "0x1"⟩ ∧
    (nft "did:nft:eip155.1_erc123.0xab_0x1"
        (ParsedDID.mk "eip155.1_erc123.0xab_0x1" none) (ResolutionOptions.mk none)
        [] envTrivial (fun _ => JsNum.nan)).1 =
      invalidDidEnvelope "Error: No chain configuration for eip155:1" := by
  constructor
  · decide
  · decide

/-- With a requested time within the skew (as the code measures it) the block
step is skipped, so an unsupported namespace fails with the message naming
it. -/
lemma assetToAccount_badns_within (asset : AssetId) (t : Int)
    (chains : List (String × ChainConfig)) (env : Env) (chain : ChainConfig)
    (hl : chains.lookup asset.chainId.toString = some chain)
    (h721 : asset.assetName.nsp ≠ "erc721") (h1155 : asset.assetName.nsp ≠ "erc1155")
    (hwithin : isWithinLastBlock t chain.skew env.now = true) :
    (assetToAccount asset (JsNum.int t) chains env).1 =
      Except.error ("Only erc721 and erc1155 namespaces are currently supported. Given: "
        ++ asset.assetName.nsp) := by
  unfold assetToAccount
  simp [hl, hwithin, h721, h1155]

/-- With a successful block lookup an unsupported namespace fails with the
message naming it, whether or not the lookup was actually consulted. -/
lemma assetToAccount_badns_blockok (asset : AssetId) (t : Int)
    (chains : List (String × ChainConfig)) (env : Env) (chain : ChainConfig)
    (b : Int) (btr : List Call)
    (hl : chains.lookup asset.chainId.toString = some chain)
    (h721 : asset.assetName.nsp ≠ "erc721") (h1155 : asset.assetName.nsp ≠ "erc1155")
    (hbt : blockAtTime t chain.blocks env = (Except.ok b, btr)) :
    (assetToAccount asset (JsNum.int t) chains env).1 =
      Except.error ("Only erc721 and erc1155 namespaces are currently supported. Given: "
        ++ asset.assetName.nsp) := by
  unfold assetToAccount
  by_cases h0 : t = 0
  · simp [hl, h0, h721, h1155]
  · by_cases hw : isWithinLastBlock t chain.skew env.now = true
    · simp [hl, h0, hw, h721, h1155]
    · have hw2 : isWithinLastBlock t chain.skew env.now = false := by simpa using hw
      simp [hl, h0, hw2, hbt, h721, h1155]

/-- C8 (amended): an identifier naming an asset namespace other than
`erc721`/`erc1155` always resolves to an error envelope (never a partial
document); when its chain is configured and no failing block lookup
intervenes — the requested time is absent or falsy, within the skew as the
code measures it, or the block lookup succeeds — the envelope's message
names the unsupported namespace.  The namespace is rejected during ownership
resolution, not by the decoder. -/
theorem C8_namespace_rejection :
    (∀ (did : String) (q : Option String) (opts : ResolutionOptions)
      (chains : List (String × ChainConfig)) (env : Env)
      (dateParse : String → JsNum) (methodId : String) (asset : AssetId),
      didToCaip methodId = Except.ok asset →
      asset.assetName.nsp ≠ "erc721" → asset.assetName.nsp ≠ "erc1155" →
      ∃ m, (nft did (ParsedDID.mk methodId q) opts chains env dateParse).1 =
        invalidDidEnvelope m) ∧
    (∀ (did : String) (q : Option String) (opts : ResolutionOptions)
      (chains : List (String × ChainConfig)) (env : Env)
      (dateParse : String → JsNum) (methodId : String) (asset : AssetId)
      (chain : ChainConfig),
      didToCaip methodId = Except.ok asset →
      chains.lookup asset.chainId.toString = some chain →
      asset.assetName.nsp ≠ "erc721" → asset.assetName.nsp ≠ "erc1155" →
      (getVersionTime dateParse (q.getD "") = JsNum.nan ∨
        ∃ t, getVersionTime dateParse (q.getD "") = JsNum.int t ∧
          (t = 0 ∨ isWithinLastBlock t chain.skew env.now = true ∨
            ∃ b tr, blockAtTime t chain.blocks env = (Except.ok b, tr))) →
      (nft did (ParsedDID.mk methodId q) opts chains env dateParse).1 =
        invalidDidEnvelope ("Error: " ++
          ("Only erc721 and erc1155 namespaces are currently supported. Given: "
            ++ asset.assetName.nsp))) := by
  constructor
  · intro did q opts chains env dateParse methodId asset hdec h721 h1155
    obtain ⟨m, hm⟩ := assetToAccount_badns_any asset
      (getVersionTime dateParse (q.getD "")) chains env h721 h1155
    refine ⟨"Error: " ++ m, ?_⟩
    apply nft_of_resolve_error
    show (resolve did methodId _ chains env).1 = _
    unfold resolve
    simp only [hdec]
    rcases ha : assetToAccount asset (getVersionTime dateParse (q.getD "")) chains env
      with ⟨res1, tr1⟩
    rw [ha] at hm
    simp only at hm
    subst hm
    simp
  · intro did q opts chains env dateParse methodId asset chain hdec hl h721 h1155 hcase
    have hfact : (assetToAccount asset (getVersionTime dateParse (q.getD ""))
        chains env).1 =
        Except.error ("Only erc721 and erc1155 namespaces are currently supported. Given: "
          ++ asset.assetName.nsp) := by
      rcases hcase with hnan | ⟨t, ht, hcase2⟩
      · rw [hnan,
          assetToAccount_badns asset JsNum.nan chains env chain hl h721 h1155 (Or.inl rfl)]
      · rw [ht]
        rcases hcase2 with rfl | hwithin | ⟨b, btr, hbt⟩
        · rw [assetToAccount_badns asset (JsNum.int 0) chains env chain hl h721 h1155
            (Or.inr rfl)]
        · exact assetToAccount_badns_within asset t chains env chain hl h721 h1155 hwithin
        · exact assetToAccount_badns_blockok asset t chains env chain b btr hl h721 h1155 hbt
    apply nft_of_resolve_error
    show (resolve did methodId _ chains env).1 = _
    unfold resolve
    simp only [hdec]
    rcases ha : assetToAccount asset (getVersionTime dateParse (q.getD "")) chains env
      with ⟨res1, tr1⟩
    rw [ha] at hfact
    simp only at hfact
    subst hfact
    simp

/-! ## Claim C7 -/

/-- C7: controller attribution.  With the identity-link store answering
`link a` for each account, the linked DIDs are collected in owner order
(`filterMap`, duplicates kept, unlinked owners skipped); the document's
controller field is omitted when none link, the single scalar when exactly
one entry exists, and the ordered array otherwise. -/
theorem C7_controller_attribution (did : String) (accounts : List AccountId)
    (ts : JsNum) (now : Int)
    (fetch : Option String → GraphQuery → Except String GraphData)
    (link : AccountId → Option String) :
    (accountsToDids accounts ts (Env.mk now fetch (fun a => Except.ok (link a)))).1 =
      Except.ok (if (accounts.filterMap link).isEmpty then none
        else some (accounts.filterMap link)) ∧
    (wrapDocument did accounts (if (accounts.filterMap link).isEmpty then none
        else some (accounts.filterMap link))).controller =
      (match accounts.filterMap link with
       | [] => none
       | [d] => some (ControllerValue.one d)
       | ds => some (ControllerValue.many ds)) := by
  constructor
  · unfold accountsToDids
    simp only [collectLinks_ok accounts link]
    simp [List.filterMap_map]
  · rcases hcs : accounts.filterMap link with _ | ⟨d, _ | ⟨d2, ds⟩⟩ <;>
      simp [wrapDocument]

/-- C7 witness: two owners linked to the same DID keep both entries
(duplicates are not collapsed), reported as an array. -/
theorem C7_witness :
    (accountsToDids
        [AccountId.mk (ChainId.mk "eip155" "1") "0xa",
          AccountId.mk (ChainId.mk "eip155" "1") "0xb"] JsNum.nan
        (Env.mk 0 (fun _ _ => Except.error "down")
          (fun a => Except.ok ((fun _ => some "did:3:x") a)))).1 =
      Except.ok (some ["did:3:x", "did:3:x"]) ∧
    (wrapDocument "did:nft:w"
        [AccountId.mk (ChainId.mk "eip155" "1") "0xa",
          AccountId.mk (ChainId.mk "eip155" "1") "0xb"]
        (some ["did:3:x", "did:3:x"])).controller =
      some (ControllerValue.many ["did:3:x", "did:3:x"]) := by
  have h := C7_controller_attribution "did:nft:w"
    [AccountId.mk (ChainId.mk "eip155" "1") "0xa",
      AccountId.mk (ChainId.mk "eip155" "1") "0xb"] JsNum.nan 0
    (fun _ _ => Except.error "down") (fun _ => some "did:3:x")
  exact ⟨h.1.trans (by decide), (h.2.symm.trans (by decide)).symm⟩

/-! ## Claim C6 -/

/-- An ERC1155 indexer modelled from its §6 contract: it answers the tokens
query for the one queried token from a balance table, honoring the query's
`value_gt: 0` balance filter — only accounts with strictly positive balance
are returned, in table order. -/
def erc1155Indexer (balances : List (String × Nat)) :
    Option String → GraphQuery → Except String GraphData :=
  fun _ q =>
    match q with
    | GraphQuery.tokens1155 _ _ =>
      Except.ok (GraphData.tokens1155
        [(balances.filter fun p => 0 < p.2).map Prod.fst])
    | _ => Except.error "unexpected query"

lemma erc1155OwnersOf_indexer (asset : AssetId) (blockNum : Int)
    (url : Option String) (balances : List (String × Nat)) (now : Int)
    (linkFn : AccountId → Except String (Option String))
    (hpos : (balances.filter fun p => 0 < p.2) ≠ []) :
    (erc1155OwnersOf asset blockNum url
      (Env.mk now (erc1155Indexer balances) linkFn)).1 =
      Except.ok ((balances.filter fun p => 0 < p.2).map Prod.fst) := by
  unfold erc1155OwnersOf erc1155Indexer
  rcases hq : (balances.filter fun p => 0 < p.2) with _ | ⟨p0, ps⟩
  · exact absurd hq hpos
  · simp [hq]

/-- C6: multi-holder resolution.  Against an indexer holding the given
balance table, an erc1155 resolution (current state) succeeds and the
document carries exactly one verification method per positive-balance
account, in indexer order; zero-balance accounts contribute none. -/
theorem C6_multi_holder (did methodId : String) (asset : AssetId)
    (chains : List (String × ChainConfig)) (chain : ChainConfig)
    (balances : List (String × Nat)) (now : Int)
    (link : AccountId → Option String)
    (hdec : didToCaip methodId = Except.ok asset)
    (hns : asset.assetName.nsp = "erc1155")
    (hl : chains.lookup asset.chainId.toString = some chain)
    (hpos : (balances.filter fun p => 0 < p.2) ≠ []) :
    ∃ r doc,
      (resolve did methodId (JsNum.int 0) chains
        (Env.mk now (erc1155Indexer balances) (fun a => Except.ok (link a)))).1 =
        Except.ok r ∧
      r.didDocument = some doc ∧
      doc.verificationMethod =
        (balances.filter fun p => 0 < p.2).map (fun p =>
          VerificationMethod.mk (did ++ "#" ++ p.1)
            "BlockchainVerificationMethod2021" did
            (asset.chainId.toString ++ ":" ++ p.1)) ∧
      doc.verificationMethod.length = (balances.filter fun p => 0 < p.2).length := by
  have hacc : (assetToAccount asset (JsNum.int 0) chains
      (Env.mk now (erc1155Indexer balances) (fun a => Except.ok (link a)))).1 =
      Except.ok ((balances.filter fun p => 0 < p.2).map
        fun p => AccountId.mk asset.chainId p.1) := by
    have h1155 := erc1155OwnersOf_indexer asset 0
      (chain.assets.lookup "erc1155") balances now (fun a => Except.ok (link a)) hpos
    rcases ho : erc1155OwnersOf asset 0 (chain.assets.lookup "erc1155")
      (Env.mk now (erc1155Indexer balances) (fun a => Except.ok (link a)))
      with ⟨ores, otr⟩
    rw [ho] at h1155
    simp only at h1155
    subst h1155
    unfold assetToAccount
    simp [hl, hns, ho, List.map_map]
  rcases ha : assetToAccount asset (JsNum.int 0) chains
    (Env.mk now (erc1155Indexer balances) (fun a => Except.ok (link a)))
    with ⟨ares, atr⟩
  rw [ha] at hacc
  simp only at hacc
  subst hacc
  refine ⟨DIDResolutionResult.mk (DIDResolutionMetadata.mk (some DID_JSON) none none)
      (some (wrapDocument did
        ((balances.filter fun p => 0 < p.2).map fun p => AccountId.mk asset.chainId p.1)
        (if ((((balances.filter fun p => 0 < p.2).map
              fun p => AccountId.mk asset.chainId p.1).map link).filterMap id).isEmpty
          then none
          else some ((((balances.filter fun p => 0 < p.2).map
              fun p => AccountId.mk asset.chainId p.1).map link).filterMap id)))) [],
    wrapDocument did
      ((balances.filter fun p => 0 < p.2).map fun p => AccountId.mk asset.chainId p.1)
      (if ((((balances.filter fun p => 0 < p.2).map
            fun p => AccountId.mk asset.chainId p.1).map link).filterMap id).isEmpty
        then none
        else some ((((balances.filter fun p => 0 < p.2).map
            fun p => AccountId.mk asset.chainId p.1).map link).filterMap id)),
    ?_, rfl, ?_, ?_⟩
  · unfold resolve
    simp only [hdec, ha]
    unfold accountsToDids
    simp only [collectLinks_ok _ link]
  · show (((balances.filter fun p => 0 < p.2).map
        fun p => AccountId.mk asset.chainId p.1).map fun account =>
          VerificationMethod.mk (did ++ "#" ++ account.address)
            "BlockchainVerificationMethod2021" did account.toString) = _
    rw [List.map_map]
    rfl
  · simp [wrapDocument]

/-- C6 witness: three accounts, one with zero balance — the document has
exactly the two positive-balance verification methods, in order. -/
theorem C6_witness :
    ∃ r doc,
      (resolve "did:nft:w" "eip155.1_erc1155.0xcd_0x1" (JsNum.int 0)
        [("eip155:1", ChainConfig.mk "https://b.example/q" 15000
          [("erc1155", "https://e.example/q")])]
        (Env.mk 0 (erc1155Indexer [("0xa", 5), ("0xb", 0), ("0xc", 3)])
          (fun a => Except.ok ((fun _ => none) a)))).1 = Except.ok r ∧
      r.didDocument = some doc ∧
      doc.verificationMethod =
        ([("0xa", 5), ("0xb", 0), ("0xc", 3)].filter fun p => 0 < p.2).map (fun p =>
          VerificationMethod.mk ("did:nft:w" ++ "#" ++ p.1)
            "BlockchainVerificationMethod2021" "did:nft:w"
            ((AssetId.mk (ChainId.mk "eip155" "1") (AssetName.mk "erc1155" "0xcd")
              "0x1").chainId.toString ++ ":" ++ p.1)) ∧
      doc.verificationMethod.length =
        ([("0xa", 5), ("0xb", 0), ("0xc", 3)].filter fun p => 0 < p.2).length :=
  C6_multi_holder "did:nft:w" "eip155.1_erc1155.0xcd_0x1"
    (AssetId.mk (ChainId.mk "eip155" "1") (AssetName.mk "erc1155" "0xcd") "0x1")
    [("eip155:1", ChainConfig.mk "https://b.example/q" 15000
      [("erc1155", "https://e.example/q")])]
    (ChainConfig.mk "https://b.example/q" 15000 [("erc1155", "https://e.example/q")])
    [("0xa", 5), ("0xb", 0), ("0xc", 3)] 0 (fun _ => none)
    (by decide) (by decide) (by decide) (by decide)

/-! ## Trace lemmas -/

/-- The erc721 lookup performs exactly one fetch, to its query url, with the
id filter and the truthy-pinned block number. -/
lemma erc721OwnerOf_trace (asset : AssetId) (blockNum : Int) (url : Option String)
    (env : Env) :
    (erc721OwnerOf asset blockNum url env).2 =
      [Call.fetch url (GraphQuery.tokens721
        (asset.assetName.reference ++ "-" ++
          String.mk ('0' :: 'x' :: bigNumberHexChars asset.tokenId.data))
        (if blockNum ≠ 0 then some blockNum else none))] := rfl

/-- The erc1155 lookup performs exactly one fetch as well. -/
lemma erc1155OwnersOf_trace (asset : AssetId) (blockNum : Int) (url : Option String)
    (env : Env) :
    (erc1155OwnersOf asset blockNum url env).2 =
      [Call.fetch url (GraphQuery.tokens1155
        (asset.assetName.reference ++ "-" ++
          String.mk ('0' :: 'x' :: bigNumberHexChars asset.tokenId.data))
        (if blockNum ≠ 0 then some blockNum else none))] := rfl

/-- The identity-link stage performs exactly one lookup per owning account,
in owner order. -/
lemma accountsToDids_trace (accounts : List AccountId) (ts : JsNum) (env : Env) :
    (accountsToDids accounts ts env).2 = accounts.map Call.caip10 := rfl

/-- The handler's trace is the pipeline's trace (content negotiation adds no
collaborator calls). -/
lemma nft_trace (did : String) (parsed : ParsedDID) (options : ResolutionOptions)
    (chains : List (String × ChainConfig)) (env : Env) (dateParse : String → JsNum) :
    (nft did parsed options chains env dateParse).2 =
      (resolve did parsed.id (getVersionTime dateParse (parsed.query.getD ""))
        chains env).2 := by
  unfold nft
  rcases hr : resolve did parsed.id (getVersionTime dateParse (parsed.query.getD ""))
    chains env with ⟨res, tr⟩
  cases res with
  | error e => simp [hr]
  | ok r =>
    simp only [hr]
    split_ifs <;> rfl

/-- A falsy timestamp propagates through `resolve` like `0`. -/
lemma resolve_falsy (did pid : String) (chains : List (String × ChainConfig))
    (env : Env) (t : JsNum) (hts : t = JsNum.nan ∨ t = JsNum.int 0) :
    resolve did pid t chains env = resolve did pid (JsNum.int 0) chains env := by
  unfold resolve
  cases hd : didToCaip pid with
  | error e => rfl
  | ok asset =>
    simp only [hd, assetToAccount_falsy asset chains env t hts,
      assetToAccount_falsy asset chains env (JsNum.int 0) (Or.inr rfl),
      show ∀ accs : List AccountId,
        accountsToDids accs t env = accountsToDids accs (JsNum.int 0) env
        from fun _ => rfl]

/-- With a falsy timestamp every call of the ownership stage is an un-pinned
ownership query — no block-height query happens. -/
lemma assetToAccount_falsy_trace (asset : AssetId)
    (chains : List (String × ChainConfig)) (env : Env) :
    ∀ c ∈ (assetToAccount asset (JsNum.int 0) chains env).2,
      (∃ url idf, c = Call.fetch url (GraphQuery.tokens721 idf none)) ∨
      (∃ url idf, c = Call.fetch url (GraphQuery.tokens1155 idf none)) := by
  intro c hc
  unfold assetToAccount at hc
  rcases hl : chains.lookup asset.chainId.toString with _ | chain
  · simp [hl] at hc
  · by_cases h721 : asset.assetName.nsp = "erc721"
    · rcases ho : erc721OwnerOf asset 0 (chain.assets.lookup "erc721") env
        with ⟨ores, otr⟩
      have hotr := erc721OwnerOf_trace asset 0 (chain.assets.lookup "erc721") env
      rw [ho] at hotr
      cases ores <;>
        (simp [hl, h721, ho, hotr] at hc; exact Or.inl ⟨_, _, hc⟩)
    · by_cases h1155 : asset.assetName.nsp = "erc1155"
      · rcases ho : erc1155OwnersOf asset 0 (chain.assets.lookup "erc1155") env
          with ⟨ores, otr⟩
        have hotr := erc1155OwnersOf_trace asset 0 (chain.assets.lookup "erc1155") env
        rw [ho] at hotr
        cases ores <;>
          (simp [hl, h721, h1155, ho, hotr] at hc; exact Or.inr ⟨_, _, hc⟩)
      · simp [hl, h721, h1155] at hc

/-- With a falsy timestamp every collaborator call of the pipeline is either
an identity-link lookup or an UN-PINNED ownership query — never a
block-height query. -/
lemma resolve_falsy_trace (did pid : String) (chains : List (String × ChainConfig))
    (env : Env) :
    ∀ c ∈ (resolve did pid (JsNum.int 0) chains env).2,
      (∃ a, c = Call.caip10 a) ∨
      (∃ url idf, c = Call.fetch url (GraphQuery.tokens721 idf none)) ∨
      (∃ url idf, c = Call.fetch url (GraphQuery.tokens1155 idf none)) := by
  intro c hc
  unfold resolve at hc
  cases hd : didToCaip pid with
  | error e => rw [hd] at hc; simp at hc
  | ok asset =>
    rw [hd] at hc
    rcases ha : assetToAccount asset (JsNum.int 0) chains env with ⟨ares, atr⟩
    have hatr : ∀ c2 ∈ atr,
        (∃ url idf, c2 = Call.fetch url (GraphQuery.tokens721 idf none)) ∨
        (∃ url idf, c2 = Call.fetch url (GraphQuery.tokens1155 idf none)) := by
      intro c2 hc2
      apply assetToAccount_falsy_trace asset chains env c2
      rw [ha]
      exact hc2
    cases ares with
    | error e =>
      have hmem : c ∈ atr := by simpa [ha] using hc
      rcases hatr c hmem with h | h
      · exact Or.inr (Or.inl h)
      · exact Or.inr (Or.inr h)
    | ok owningAccounts =>
      rcases hcd : accountsToDids owningAccounts (JsNum.int 0) env with ⟨cres, ctr⟩
      have hctr : ctr = owningAccounts.map Call.caip10 := by
        have h2 := accountsToDids_trace owningAccounts (JsNum.int 0) env
        rw [hcd] at h2
        simpa using h2
      have hsplit : c ∈ atr ++ ctr := by
        cases cres <;> simpa [ha, hcd] using hc
      rcases List.mem_append.mp hsplit with h | h
      · rcases hatr c h with h2 | h2
        · exact Or.inr (Or.inl h2)
        · exact Or.inr (Or.inr h2)
      · rw [hctr] at h
        rcases List.mem_map.mp h with ⟨a, _, rfl⟩
        exact Or.inl ⟨a, rfl⟩

/-- `nft` results agree whenever the underlying `resolve` calls agree. -/
lemma nft_resolve_congr (did : String) (p1 p2 : ParsedDID)
    (opts : ResolutionOptions) (chains : List (String × ChainConfig)) (env : Env)
    (dateParse : String → JsNum)
    (h : resolve did p1.id (getVersionTime dateParse (p1.query.getD "")) chains env =
      resolve did p2.id (getVersionTime dateParse (p2.query.getD "")) chains env) :
    nft did p1 opts chains env dateParse = nft did p2 opts chains env dateParse := by
  unfold nft
  simp only [h]

/-! ## Claim C10 -/

/-- C10: a `versionTime` value that fails to parse (`NaN` date) or parses to
the Unix epoch behaves exactly like a request with no `versionTime` at all —
same result, same collaborator calls, no error — and every call made is
either an identity-link lookup or an un-pinned ownership query (no
block-height lookup, no pinning). -/
theorem C10_versiontime_nan_or_epoch (did pid : String) (opts : ResolutionOptions)
    (chains : List (String × ChainConfig)) (env : Env) (dateParse : String → JsNum)
    (query : String) (part v : List Char)
    (hfind : (splitChar '&' query.data).find? includesVersionTime = some part)
    (hval : (splitChar '=' part)[1]? = some v)
    (hparse : dateParse (String.mk v) = JsNum.nan ∨
      dateParse (String.mk v) = JsNum.int 0) :
    nft did (ParsedDID.mk pid (some query)) opts chains env dateParse =
      nft did (ParsedDID.mk pid none) opts chains env dateParse ∧
    ∀ c ∈ (nft did (ParsedDID.mk pid (some query)) opts chains env dateParse).2,
      (∃ a, c = Call.caip10 a) ∨
      (∃ url idf, c = Call.fetch url (GraphQuery.tokens721 idf none)) ∨
      (∃ url idf, c = Call.fetch url (GraphQuery.tokens1155 idf none)) := by
  have hgv : getVersionTime dateParse query = JsNum.nan ∨
      getVersionTime dateParse query = JsNum.int 0 := by
    unfold getVersionTime
    simp only [hfind, hval]
    rcases hparse with h | h <;> rw [h]
    · exact Or.inl rfl
    · exact Or.inr (by decide)
  have hre : resolve did pid (getVersionTime dateParse query) chains env =
      resolve did pid (getVersionTime dateParse "") chains env := by
    rw [show getVersionTime dateParse "" = JsNum.int 0 from rfl]
    exact resolve_falsy did pid chains env _ hgv
  constructor
  · exact nft_resolve_congr did (ParsedDID.mk pid (some query))
      (ParsedDID.mk pid none) opts chains env dateParse hre
  · intro c hc
    have hnt := nft_trace did (ParsedDID.mk pid (some query)) opts chains env dateParse
    rw [hnt] at hc
    have hr2 : resolve did pid (getVersionTime dateParse query) chains env =
        resolve did pid (JsNum.int 0) chains env :=
      resolve_falsy did pid chains env _ hgv
    rw [show (ParsedDID.mk pid (some query)).id = pid from rfl,
      show ((ParsedDID.mk pid (some query)).query.getD "") = query from rfl, hr2] at hc
    exact resolve_falsy_trace did pid chains env c hc

/-- C10 witness: a `versionTime` whose value parses as an invalid date is
ignored; the request behaves as if no `versionTime` were given. -/
theorem C10_witness :
    nft "did:nft:w" (ParsedDID.mk "eip155.1_erc721.0xab_0x1" (some "versionTime=x"))
      (ResolutionOptions.mk none) [] envTrivial (fun _ => JsNum.nan) =
      nft "did:nft:w" (ParsedDID.mk "eip155.1_erc721.0xab_0x1" none)
        (ResolutionOptions.mk none) [] envTrivial (fun _ => JsNum.nan) ∧
    ∀ c ∈ (nft "did:nft:w"
        (ParsedDID.mk "eip155.1_erc721.0xab_0x1" (some "versionTime=x"))
        (ResolutionOptions.mk none) [] envTrivial (fun _ => JsNum.nan)).2,
      (∃ a, c = Call.caip10 a) ∨
      (∃ url idf, c = Call.fetch url (GraphQuery.tokens721 idf none)) ∨
      (∃ url idf, c = Call.fetch url (GraphQuery.tokens1155 idf none)) :=
  C10_versiontime_nan_or_epoch "did:nft:w" "eip155.1_erc721.0xab_0x1"
    (ResolutionOptions.mk none) [] envTrivial (fun _ => JsNum.nan)
    "versionTime=x" "versionTime=x".data "x".data
    (by decide) (by decide) (Or.inl rfl)

/-! ## Claims C3 and C4: concrete fixtures -/

/-- A one-chain configuration (eip155:1, 15000 ms skew) used by the
time-routing claims. -/
def chainsC : List (String × ChainConfig) :=
  [("eip155:1", ChainConfig.mk "https://blocks.example/q" 15000
    [("erc721", "https://erc721.example/q"),
      ("erc1155", "https://erc1155.example/q")])]

/-- A deterministic collaborator environment: the clock reads
1628529680000 ms, the blocks subgraph answers block 1234567, the token
subgraphs answer one owner, the identity link store links every account. -/
def envC : Env :=
  Env.mk 1628529680000
    (fun _ q =>
      match q with
      | GraphQuery.blocks _ => Except.ok (GraphData.blocks [1234567])
      | GraphQuery.tokens721 _ _ => Except.ok (GraphData.tokens721 ["0xowner1"])
      | GraphQuery.tokens1155 _ _ => Except.ok (GraphData.tokens1155 [["0xowner1"]]))
    (fun _ => Except.ok (some "did:3:testing"))

/-- A date parser fixture knowing one historical instant. -/
def dateParseC : String → JsNum :=
  fun s => if s = "2021-03-16T10:05:21Z" then JsNum.int 1615889121000 else JsNum.nan

/-! ## Claim C3 -/

/-- C3 (code bug): skew suppression never fires for a current request.  The
requested time here IS the current instant (the clock reads
1628529680000 ms and the request asks for second 1628529680, zero distance,
well within the 15000 ms skew), yet `isWithinLastBlock` — which subtracts the
SECONDS timestamp from the MILLISECONDS clock — answers `false`, and the
resolution's first collaborator call is a block-height query. -/
theorem C3_skew_suppression_bug :
    (1628529680000 : Int) - 1628529680 * 1000 ≤ 15000 ∧
    isWithinLastBlock 1628529680 15000 1628529680000 = false ∧
    (assetToAccount ⟨⟨"eip155", "1"⟩, ⟨"erc721", "0xab"⟩, "0x1"⟩
        (JsNum.int 1628529680) chainsC envC).2.head? =
      some (Call.fetch (some "https://blocks.example/q")
        (GraphQuery.blocks 1628529680)) := by
  refine ⟨by decide, by decide, by decide⟩

/-- C8 witness: the unsupported namespace `erc123` on a configured chain is
reported in the envelope message, here on the newly covered path where the
requested time is nonzero and old (as the code measures it) and the block
lookup succeeds with block 1234567. -/
theorem C8_witness :
    (nft "did:nft:eip155.1_erc123.0xab_0x1"
        (ParsedDID.mk "eip155.1_erc123.0xab_0x1"
          (some "versionTime=2021-03-16T10:05:21Z"))
        (ResolutionOptions.mk none) chainsC envC dateParseC).1 =
      invalidDidEnvelope
        "Error: Only erc721 and erc1155 namespaces are currently supported. Given: erc123" :=
  (C8_namespace_rejection.2 "did:nft:eip155.1_erc123.0xab_0x1"
    (some "versionTime=2021-03-16T10:05:21Z") (ResolutionOptions.mk none)
    chainsC envC dateParseC "eip155.1_erc123.0xab_0x1"
    ⟨⟨"eip155", "1"⟩, ⟨"erc123", "0xab"⟩, "0x1"⟩
    (ChainConfig.mk "https://blocks.example/q" 15000
      [("erc721", "https://erc721.example/q"),
        ("erc1155", "https://erc1155.example/q")])
    (by decide) (by decide) (by decide) (by decide)
    (Or.inr ⟨1615889121, by decide,
      Or.inr (Or.inr ⟨1234567,
        [Call.fetch (some "https://blocks.example/q") (GraphQuery.blocks 1615889121)],
        by decide⟩)⟩)).trans (by decide)

/-! ## Claim C4 -/

/-- C4 (as stated, counterexample): a successful historical resolution makes
THREE collaborator calls before the document is assembled — block-height,
ownership, and one identity-link lookup per owner — not two. -/
theorem C4_counterexample :
    (nft "did:nft:eip155.1_erc721.0xab_0x1"
        (ParsedDID.mk "eip155.1_erc721.0xab_0x1"
          (some "versionTime=2021-03-16T10:05:21Z"))
        (ResolutionOptions.mk none) chainsC envC dateParseC).1.didDocument.isSome =
      true ∧
    (nft "did:nft:eip155.1_erc721.0xab_0x1"
        (ParsedDID.mk "eip155.1_erc721.0xab_0x1"
          (some "versionTime=2021-03-16T10:05:21Z"))
        (ResolutionOptions.mk none) chainsC envC dateParseC).2 =
      [Call.fetch (some "https://blocks.example/q") (GraphQuery.blocks 1615889121),
        Call.fetch (some "https://erc721.example/q")
          (GraphQuery.tokens721 "0xab-0x1" (some 1234567)),
        Call.caip10 (AccountId.mk (ChainId.mk "eip155" "1") "0xowner1")] ∧
    (nft "did:nft:eip155.1_erc721.0xab_0x1"
        (ParsedDID.mk "eip155.1_erc721.0xab_0x1"
          (some "versionTime=2021-03-16T10:05:21Z"))
        (ResolutionOptions.mk none) chainsC envC dateParseC).2.length = 3 ∧
    (3 : Nat) ≠ 2 := by
  refine ⟨by decide, by decide, by decide, by decide⟩

/-- The ownership stage under an old timestamp: exactly two indexer calls, in
order — the block-height query with `timestamp_lte` = the requested time,
then the ownership query pinned to the returned height. -/
lemma assetToAccount_old (asset : AssetId) (chains : List (String × ChainConfig))
    (env : Env) (chain : ChainConfig) (t b : Int) (rest : List Int)
    (hl : chains.lookup asset.chainId.toString = some chain)
    (hts : t ≠ 0) (hold : ¬(env.now - t ≤ chain.skew))
    (hb : env.fetch (some chain.blocks) (GraphQuery.blocks t) =
      Except.ok (GraphData.blocks (b :: rest)))
    (hbnz : b ≠ 0)
    (hns : asset.assetName.nsp = "erc721" ∨ asset.assetName.nsp = "erc1155") :
    ∃ url q2,
      (assetToAccount asset (JsNum.int t) chains env).2 =
        [Call.fetch (some chain.blocks) (GraphQuery.blocks t), Call.fetch url q2] ∧
      ((asset.assetName.nsp = "erc721" ∧ url = chain.assets.lookup "erc721" ∧
          q2 = GraphQuery.tokens721 (asset.assetName.reference ++ "-" ++
            String.mk ('0' :: 'x' :: bigNumberHexChars asset.tokenId.data))
            (some b)) ∨
        (asset.assetName.nsp = "erc1155" ∧ url = chain.assets.lookup "erc1155" ∧
          q2 = GraphQuery.tokens1155 (asset.assetName.reference ++ "-" ++
            String.mk ('0' :: 'x' :: bigNumberHexChars asset.tokenId.data))
            (some b))) := by
  have hw : isWithinLastBlock t chain.skew env.now = false := by
    simp [isWithinLastBlock, hold]
  have hbt : blockAtTime t chain.blocks env =
      (Except.ok b, [Call.fetch (some chain.blocks) (GraphQuery.blocks t)]) := by
    unfold blockAtTime
    simp only [hb]
  rcases hns with h721 | h1155
  · rcases ho : erc721OwnerOf asset b (chain.assets.lookup "erc721") env
      with ⟨ores, otr⟩
    have hotr : otr = [Call.fetch (chain.assets.lookup "erc721")
        (GraphQuery.tokens721 (asset.assetName.reference ++ "-" ++
          String.mk ('0' :: 'x' :: bigNumberHexChars asset.tokenId.data))
          (some b))] := by
      have h2 := erc721OwnerOf_trace asset b (chain.assets.lookup "erc721") env
      rw [ho] at h2
      simpa [if_pos hbnz] using h2
    refine ⟨chain.assets.lookup "erc721",
      GraphQuery.tokens721 (asset.assetName.reference ++ "-" ++
        String.mk ('0' :: 'x' :: bigNumberHexChars asset.tokenId.data)) (some b),
      ?_, Or.inl ⟨h721, rfl, rfl⟩⟩
    unfold assetToAccount
    cases ores <;>
      simp [hl, hts, hw, hbt, h721, ho, hotr]
  · rcases ho : erc1155OwnersOf asset b (chain.assets.lookup "erc1155") env
      with ⟨ores, otr⟩
    have hotr : otr = [Call.fetch (chain.assets.lookup "erc1155")
        (GraphQuery.tokens1155 (asset.assetName.reference ++ "-" ++
          String.mk ('0' :: 'x' :: bigNumberHexChars asset.tokenId.data))
          (some b))] := by
      have h2 := erc1155OwnersOf_trace asset b (chain.assets.lookup "erc1155") env
      rw [ho] at h2
      simpa [if_pos hbnz] using h2
    have h721 : asset.assetName.nsp ≠ "erc721" := by
      rw [h1155]
      decide
    refine ⟨chain.assets.lookup "erc1155",
      GraphQuery.tokens1155 (asset.assetName.reference ++ "-" ++
        String.mk ('0' :: 'x' :: bigNumberHexChars asset.tokenId.data)) (some b),
      ?_, Or.inr ⟨h1155, rfl, rfl⟩⟩
    unfold assetToAccount
    cases ores <;>
      simp [hl, hts, hw, hbt, h721, h1155, ho, hotr]

/-- C4 (amended): when the requested time is nonzero and older than the
configured skew (as the code measures it), the first two collaborator calls
are, in order, the block-height query carrying the requested timestamp in its
`timestamp_lte` filter and the ownership query pinned to the returned block
height; every remaining call before document assembly is an identity-link
lookup (one per owner). -/
theorem C4_historical_order (did methodId : String) (q : Option String)
    (opts : ResolutionOptions) (ts : Int) (chains : List (String × ChainConfig))
    (env : Env) (dateParse : String → JsNum) (asset : AssetId)
    (chain : ChainConfig) (b : Int) (rest : List Int)
    (hdec : didToCaip methodId = Except.ok asset)
    (hgvt : getVersionTime dateParse (q.getD "") = JsNum.int ts)
    (hl : chains.lookup asset.chainId.toString = some chain)
    (hts : ts ≠ 0) (hold : ¬(env.now - ts ≤ chain.skew))
    (hns : asset.assetName.nsp = "erc721" ∨ asset.assetName.nsp = "erc1155")
    (hb : env.fetch (some chain.blocks) (GraphQuery.blocks ts) =
      Except.ok (GraphData.blocks (b :: rest)))
    (hbnz : b ≠ 0) :
    ∃ url q2 tail,
      (nft did (ParsedDID.mk methodId q) opts chains env dateParse).2 =
        Call.fetch (some chain.blocks) (GraphQuery.blocks ts) ::
          Call.fetch url q2 :: tail ∧
      ((asset.assetName.nsp = "erc721" ∧ url = chain.assets.lookup "erc721" ∧
          q2 = GraphQuery.tokens721 (asset.assetName.reference ++ "-" ++
            String.mk ('0' :: 'x' :: bigNumberHexChars asset.tokenId.data))
            (some b)) ∨
        (asset.assetName.nsp = "erc1155" ∧ url = chain.assets.lookup "erc1155" ∧
          q2 = GraphQuery.tokens1155 (asset.assetName.reference ++ "-" ++
            String.mk ('0' :: 'x' :: bigNumberHexChars asset.tokenId.data))
            (some b))) ∧
      ∀ c ∈ tail, ∃ a, c = Call.caip10 a := by
  obtain ⟨url, q2, htr, hcase⟩ :=
    assetToAccount_old asset chains env chain ts b rest hl hts hold hb hbnz hns
  rcases ha : assetToAccount asset (JsNum.int ts) chains env with ⟨ares, atr⟩
  rw [ha] at htr
  have htr2 : atr = [Call.fetch (some chain.blocks) (GraphQuery.blocks ts),
      Call.fetch url q2] := by simpa using htr
  have hnt : (nft did (ParsedDID.mk methodId q) opts chains env dateParse).2 =
      (resolve did methodId (getVersionTime dateParse (q.getD "")) chains env).2 := by
    simpa using nft_trace did (ParsedDID.mk methodId q) opts chains env dateParse
  rw [hnt, hgvt]
  unfold resolve
  simp only [hdec, ha]
  cases ares with
  | error e =>
    refine ⟨url, q2, [], ?_, hcase, by simp⟩
    simp [htr2]
  | ok accounts =>
    rcases hcd : accountsToDids accounts (JsNum.int ts) env with ⟨cres, ctr⟩
    have hctr : ctr = accounts.map Call.caip10 := by
      have h2 := accountsToDids_trace accounts (JsNum.int ts) env
      rw [hcd] at h2
      simpa using h2
    refine ⟨url, q2, ctr, ?_, hcase, ?_⟩
    · cases cres <;> simp [hcd, htr2]
    · intro c hc
      rw [hctr] at hc
      rcases List.mem_map.mp hc with ⟨a, _, rfl⟩
      exact ⟨a, rfl⟩

/-- C4 witness: the amended ordering evaluated in the concrete environment
(the same scenario as the counterexample run). -/
theorem C4_witness :
    ∃ url q2 tail,
      (nft "did:nft:eip155.1_erc721.0xab_0x1"
          (ParsedDID.mk "eip155.1_erc721.0xab_0x1"
            (some "versionTime=2021-03-16T10:05:21Z"))
          (ResolutionOptions.mk none) chainsC envC dateParseC).2 =
        Call.fetch (some (ChainConfig.mk "https://blocks.example/q" 15000
            [("erc721", "https://erc721.example/q"),
              ("erc1155", "https://erc1155.example/q")]).blocks)
          (GraphQuery.blocks 1615889121) :: Call.fetch url q2 :: tail ∧
      (((AssetId.mk (ChainId.mk "eip155" "1") (AssetName.mk "erc721" "0xab")
            "0x1").assetName.nsp = "erc721" ∧
          url = (ChainConfig.mk "https://blocks.example/q" 15000
            [("erc721", "https://erc721.example/q"),
              ("erc1155", "https://erc1155.example/q")]).assets.lookup "erc721" ∧
          q2 = GraphQuery.tokens721 ((AssetId.mk (ChainId.mk "eip155" "1")
              (AssetName.mk "erc721" "0xab") "0x1").assetName.reference ++ "-" ++
            String.mk ('0' :: 'x' :: bigNumberHexChars
              (AssetId.mk (ChainId.mk "eip155" "1") (AssetName.mk "erc721" "0xab")
                "0x1").tokenId.data)) (some 1234567)) ∨
        (((AssetId.mk (ChainId.mk "eip155" "1") (AssetName.mk "erc721" "0xab")
            "0x1").assetName.nsp = "erc1155" ∧
          url = (ChainConfig.mk "https://blocks.example/q" 15000
            [("erc721", "https://erc721.example/q"),
              ("erc1155", "https://erc1155.example/q")]).assets.lookup "erc1155" ∧
          q2 = GraphQuery.tokens1155 ((AssetId.mk (ChainId.mk "eip155" "1")
              (AssetName.mk "erc721" "0xab") "0x1").assetName.reference ++ "-" ++
            String.mk ('0' :: 'x' :: bigNumberHexChars
              (AssetId.mk (ChainId.mk "eip155" "1") (AssetName.mk "erc721" "0xab")
                "0x1").tokenId.data)) (some 1234567)))) ∧
      ∀ c ∈ tail, ∃ a, c = Call.caip10 a :=
  C4_historical_order "did:nft:eip155.1_erc721.0xab_0x1"
    "eip155.1_erc721.0xab_0x1" (some "versionTime=2021-03-16T10:05:21Z")
    (ResolutionOptions.mk none) 1615889121 chainsC envC dateParseC
    (AssetId.mk (ChainId.mk "eip155" "1") (AssetName.mk "erc721" "0xab") "0x1")
    (ChainConfig.mk "https://blocks.example/q" 15000
      [("erc721", "https://erc721.example/q"),
        ("erc1155", "https://erc1155.example/q")])
    1234567 []
    (by decide) (by decide) (by decide) (by decide) (by decide)
    (Or.inl (by decide)) (by decide) (by decide)

end NftDid
